import Mathlib

/-!
# Frame store of the chiaki Python wrapper

A shallow embedding of the frame handling of `lib/src/python_wrapper.c`:
the NAL classifier `get_first_nal_type`, the per-unit callback
`video_frame_cb`, and the consumer-side reads
`chiaki_python_session_get_frame_ex`, `chiaki_python_session_get_iframe`,
`chiaki_python_session_has_iframe`, `chiaki_python_session_get_frame_seq`
and `chiaki_python_session_clear_iframe`.

Conventions of the embedding.

* A byte is a `Nat`; a buffer is a `List Nat`.  A pointer that may be `NULL`
  is an `Option`: `none` is `NULL`, `some b` points at the bytes `b`.
* `size_t` and `uint64_t` are 64 bits wide.  The two places where the source
  does arithmetic on them (`frame_seq++` and
  `sps_pps_size + buf_size`) are reduced modulo `2 ^ 64`.
* Every function takes the session the pointer `sess` points at (the source
  returns at once on a `NULL` session) and hands back the session as it is
  after the call.
* Every `malloc` of the callback may fail; the outcome of the three calls is
  an argument of the callback (`MallocOutcome`).  `free` has no visible
  effect and is not modelled.
* The mutex, the `fprintf` logging and the two debug counters
  (`frame_count`, `max_frame_size`), which only feed the logging, are not
  modelled.
-/

set_option linter.unusedVariables false

namespace ChiakiPython

/-- Line 32: `#define MAX_FRAME_SIZE (4 * 1024 * 1024)`. -/
def MAX_FRAME_SIZE : Nat := 4 * 1024 * 1024

/-- Number of values of a `size_t`. -/
def SIZE_T_MOD : Nat := 2 ^ 64

/-- Number of values of a `uint64_t`. -/
def UINT64_MOD : Nat := 2 ^ 64

/-- The fields of `PythonSession` (lines 35-52) that the frame handling
touches.  `session`, `log`, `session_thread` and `frame_mutex` belong to the
streaming engine and are left out. -/
structure PythonSession where
  connected : Bool
  quit : Bool
  latest_frame : Option (List Nat)
  latest_frame_size : Nat
  frame_seq : Nat
  sps_pps : Option (List Nat)
  sps_pps_size : Nat
  iframe : Option (List Nat)
  iframe_size : Nat
  have_iframe : Bool
deriving DecidableEq

/-- The session right after `calloc(1, sizeof(PythonSession))` in
`chiaki_python_session_create` (line 189): every field is zero. -/
def calloc_session : PythonSession :=
  { connected := false
    quit := false
    latest_frame := none
    latest_frame_size := 0
    frame_seq := 0
    sps_pps := none
    sps_pps_size := 0
    iframe := none
    iframe_size := 0
    have_iframe := false }

/-- Outcome of the three `malloc` calls of one `video_frame_cb` invocation
(lines 102, 120 and 143): `true` when the call returns a block. -/
structure MallocOutcome where
  latest_ok : Bool
  sps_pps_ok : Bool
  iframe_ok : Bool
deriving DecidableEq

/-- All three allocations succeed. -/
def malloc_ok : MallocOutcome :=
  { latest_ok := true, sps_pps_ok := true, iframe_ok := true }

/-- The expression `buf[i]`; reading past the end of the list gives `0`
(the source never does so when `buf` holds `buf_size` bytes). -/
def byte_at (buf : List Nat) (i : Nat) : Nat := buf.getD i 0

/-- Lines 59-70, `get_first_nal_type`. -/
def get_first_nal_type (buf : List Nat) (buf_size : Nat) : Int :=
  if buf_size < 5 then
    -1
  else if byte_at buf 0 = 0 ∧ byte_at buf 1 = 0 ∧ byte_at buf 2 = 0 ∧ byte_at buf 3 = 1 then
    ((byte_at buf 4 &&& 0x1f : Nat) : Int)
  else if byte_at buf 0 = 0 ∧ byte_at buf 1 = 0 ∧ byte_at buf 2 = 1 then
    ((byte_at buf 3 &&& 0x1f : Nat) : Int)
  else
    -1

/-- Lines 99-107 of `video_frame_cb`: the new unit becomes the latest frame.
`malloc(buf_size)` followed by `memcpy(.., buf, buf_size)` yields the first
`buf_size` bytes of `buf`; when `malloc` fails the pointer is `NULL` and
neither the size nor the sequence number is touched. -/
def store_latest (buf : List Nat) (buf_size : Nat) (m : MallocOutcome)
    (sess : PythonSession) : PythonSession :=
  if m.latest_ok then
    { sess with
      latest_frame := some (buf.take buf_size)
      latest_frame_size := buf_size
      frame_seq := (sess.frame_seq + 1) % UINT64_MOD }
  else
    { sess with latest_frame := none }

/-- Lines 109-125 of `video_frame_cb`: a unit of NAL type 7 or 8 replaces the
cached header. -/
def store_header (buf : List Nat) (buf_size : Nat) (nal_type : Int) (m : MallocOutcome)
    (sess : PythonSession) : PythonSession :=
  let is_header : Bool := (nal_type == 7 || nal_type == 8)
  if is_header || (decide (buf_size < 500) && nal_type == 7) then
    if m.sps_pps_ok then
      { sess with
        sps_pps := some (buf.take buf_size)
        sps_pps_size := buf_size }
    else
      { sess with sps_pps := none }
  else
    sess

/-- Lines 127-154 of `video_frame_cb`: an IDR unit, or any unit of more than
50000 bytes, is stored behind the cached header.  The `match` is the test
`sess->sps_pps` of line 138.  The block obtained from `malloc(total_size)`
holds `total_size` bytes: the header copied at offset 0 and the unit copied
at offset `sps_pps_size`. -/
def store_iframe (buf : List Nat) (buf_size : Nat) (nal_type : Int) (m : MallocOutcome)
    (sess : PythonSession) : PythonSession :=
  let is_idr : Bool := (nal_type == 5)
  let is_large_iframe : Bool := decide (buf_size > 50000)
  let is_iframe : Bool := is_idr || is_large_iframe
  match sess.sps_pps with
  | none => sess
  | some hdr =>
    if is_iframe && decide (sess.sps_pps_size > 0) then
      let total_size := (sess.sps_pps_size + buf_size) % SIZE_T_MOD
      if total_size ≤ MAX_FRAME_SIZE then
        if m.iframe_ok then
          { sess with
            iframe := some ((hdr.take sess.sps_pps_size ++ buf.take buf_size).take total_size)
            iframe_size := total_size
            have_iframe := true }
        else
          { sess with iframe := none }
      else
        sess
    else
      sess

/-- Lines 74-158, `video_frame_cb`.  `frames_lost` and `frame_recovered` are
not read by the source.  The result is the returned `bool` and the session
after the call. -/
def video_frame_cb (buf : List Nat) (buf_size : Nat) (frames_lost : Int)
    (frame_recovered : Bool) (m : MallocOutcome) (sess : PythonSession) :
    Bool × PythonSession :=
  if buf_size = 0 then
    (true, sess)
  else
    let nal_type := get_first_nal_type buf buf_size
    let sess := store_latest buf buf_size m sess
    let sess := store_header buf buf_size nal_type m sess
    let sess := store_iframe buf buf_size nal_type m sess
    (true, sess)

/-- What `chiaki_python_session_get_frame_ex` leaves behind: the returned
size, the destination buffer, the cell `seq_out` points at, and the
session. -/
structure FrameExResult where
  ret : Nat
  buffer : Option (List Nat)
  seq_out : Option Nat
  sess : PythonSession
deriving DecidableEq

/-- Lines 318-340, `chiaki_python_session_get_frame_ex`.  `buffer` is the
destination (`none` for `NULL`), `seq_out` the cell the out-parameter points
at (`none` for `NULL`).  `memcpy(buffer, latest_frame, n)` overwrites the
first `n` bytes of the destination. -/
def chiaki_python_session_get_frame_ex (sess : PythonSession) (buffer : Option (List Nat))
    (buffer_size : Nat) (seq_out : Option Nat) : FrameExResult :=
  match buffer with
  | none => { ret := 0, buffer := none, seq_out := seq_out, sess := sess }
  | some dst =>
    match sess.latest_frame with
    | some frame =>
      if sess.latest_frame_size ≤ buffer_size then
        { ret := sess.latest_frame_size
          buffer := some (frame.take sess.latest_frame_size ++ dst.drop sess.latest_frame_size)
          seq_out := seq_out.map (fun _ => sess.frame_seq)
          sess := sess }
      else
        { ret := 0, buffer := some dst, seq_out := seq_out, sess := sess }
    | none => { ret := 0, buffer := some dst, seq_out := seq_out, sess := sess }

/-- Lines 343-349, `chiaki_python_session_get_frame`. -/
def chiaki_python_session_get_frame (sess : PythonSession) (buffer : Option (List Nat))
    (buffer_size : Nat) : FrameExResult :=
  chiaki_python_session_get_frame_ex sess buffer buffer_size none

/-- Lines 352-357, `chiaki_python_session_get_frame_seq`. -/
def chiaki_python_session_get_frame_seq (sess : PythonSession) : Nat × PythonSession :=
  (sess.frame_seq, sess)

/-- What `chiaki_python_session_get_iframe` leaves behind: the returned size,
the destination buffer and the session. -/
structure IframeResult where
  ret : Nat
  buffer : Option (List Nat)
  sess : PythonSession
deriving DecidableEq

/-- Lines 361-380, `chiaki_python_session_get_iframe`. -/
def chiaki_python_session_get_iframe (sess : PythonSession) (buffer : Option (List Nat))
    (buffer_size : Nat) : IframeResult :=
  match buffer with
  | none => { ret := 0, buffer := none, sess := sess }
  | some dst =>
    match sess.iframe with
    | some frame =>
      if sess.have_iframe && decide (sess.iframe_size ≤ buffer_size) then
        { ret := sess.iframe_size
          buffer := some (frame.take sess.iframe_size ++ dst.drop sess.iframe_size)
          sess := sess }
      else
        { ret := 0, buffer := some dst, sess := sess }
    | none => { ret := 0, buffer := some dst, sess := sess }

/-- Lines 383-388, `chiaki_python_session_has_iframe`. -/
def chiaki_python_session_has_iframe (sess : PythonSession) : Bool × PythonSession :=
  (sess.have_iframe, sess)

/-- Lines 391-398, `chiaki_python_session_clear_iframe`. -/
def chiaki_python_session_clear_iframe (sess : PythonSession) : PythonSession :=
  { sess with have_iframe := false }

/-- One invocation of the callback by the engine. -/
structure Delivery where
  buf : List Nat
  buf_size : Nat
  frames_lost : Int
  frame_recovered : Bool
  malloc : MallocOutcome
deriving DecidableEq

/-- The session after the callback has run on one delivery. -/
def deliver (sess : PythonSession) (d : Delivery) : PythonSession :=
  (video_frame_cb d.buf d.buf_size d.frames_lost d.frame_recovered d.malloc sess).2

/-- The session after the callback has run on each delivery in turn. -/
def deliver_all (sess : PythonSession) (ds : List Delivery) : PythonSession :=
  ds.foldl deliver sess

/-- The test that guards lines 146-149 of `video_frame_cb`, read on the
session as it is when line 138 is reached: the unit counts as an I-frame, a
non-empty header is cached, the combined size is within `MAX_FRAME_SIZE` and
`malloc(total_size)` returns a block. -/
def synthesis_guard (buf_size : Nat) (nal_type : Int) (m : MallocOutcome)
    (sess : PythonSession) : Bool :=
  ((nal_type == 5) || decide (buf_size > 50000)) &&
    sess.sps_pps.isSome && decide (sess.sps_pps_size > 0) &&
    decide ((sess.sps_pps_size + buf_size) % SIZE_T_MOD ≤ MAX_FRAME_SIZE) && m.iframe_ok

/-- Whether the delivery `d`, made on the session `sess`, gets as far as
storing a complete I-frame (lines 146-149). -/
def delivery_synthesizes (sess : PythonSession) (d : Delivery) : Bool :=
  decide (d.buf_size ≠ 0) &&
    synthesis_guard d.buf_size (get_first_nal_type d.buf d.buf_size) d.malloc
      (store_header d.buf d.buf_size (get_first_nal_type d.buf d.buf_size) d.malloc
        (store_latest d.buf d.buf_size d.malloc sess))

/-- None of the deliveries `ds`, made one after the other starting on
`sess`, stores a complete I-frame. -/
def no_synthesis : PythonSession → List Delivery → Bool
  | _, [] => true
  | sess, d :: ds => !(delivery_synthesizes sess d) && no_synthesis (deliver sess d) ds

/-- The delivery of the whole of `buf` (`buf_size` is its length), with no
loss reported and every allocation succeeding. -/
def whole (buf : List Nat) : Delivery :=
  { buf := buf, buf_size := buf.length, frames_lost := 0, frame_recovered := false,
    malloc := malloc_ok }

/-- A unit of `n + 5` bytes: the start code `00 00 00 01`, the header byte
`0x67` (NAL type 7) and `n` zero bytes. -/
def sps_unit (n : Nat) : List Nat := 0 :: 0 :: 0 :: 1 :: 0x67 :: List.replicate n 0

/-- A unit of `n + 1` bytes without a start code: `0xff` and `n` zero
bytes. -/
def raw_unit (n : Nat) : List Nat := 0xff :: List.replicate n 0

/-- The deliveries of `ds` that carry a non-empty unit, in order. -/
def accepted (ds : List Delivery) : List Delivery :=
  ds.filter (fun d => decide (d.buf_size ≠ 0))

/-- A call made on the session: by the engine (`video_frame`) or by the
consumer. -/
inductive Op where
  | video_frame (d : Delivery)
  | get_frame_ex (buffer : Option (List Nat)) (buffer_size : Nat) (seq_out : Option Nat)
  | get_frame (buffer : Option (List Nat)) (buffer_size : Nat)
  | get_frame_seq
  | get_iframe (buffer : Option (List Nat)) (buffer_size : Nat)
  | has_iframe
  | clear_iframe

/-- The session after one call. -/
def step (sess : PythonSession) : Op → PythonSession
  | .video_frame d => deliver sess d
  | .get_frame_ex buffer buffer_size seq_out =>
    (chiaki_python_session_get_frame_ex sess buffer buffer_size seq_out).sess
  | .get_frame buffer buffer_size =>
    (chiaki_python_session_get_frame sess buffer buffer_size).sess
  | .get_frame_seq => (chiaki_python_session_get_frame_seq sess).2
  | .get_iframe buffer buffer_size =>
    (chiaki_python_session_get_iframe sess buffer buffer_size).sess
  | .has_iframe => (chiaki_python_session_has_iframe sess).2
  | .clear_iframe => chiaki_python_session_clear_iframe sess

/-- The session after a sequence of calls. -/
def run (sess : PythonSession) (ops : List Op) : PythonSession :=
  ops.foldl step sess

/-- The I-frame slot is within the bound: the recorded size is at most
`MAX_FRAME_SIZE` and the block held, if any, has at most that many bytes. -/
def iframe_bounded (s : PythonSession) : Prop :=
  s.iframe_size ≤ MAX_FRAME_SIZE ∧ ∀ b, s.iframe = some b → b.length ≤ s.iframe_size

/-- The largest size an object in memory can have (`PTRDIFF_MAX` on a
64-bit platform). -/
def PTRDIFF_MAX : Nat := 2 ^ 63 - 1

/-- The delivery hands over a unit that is an object in memory: `buf_size`
is the number of bytes at `buf`, and that number is at most
`PTRDIFF_MAX`. -/
def real_unit (d : Delivery) : Bool :=
  decide (d.buf_size = d.buf.length) && decide (d.buf.length ≤ PTRDIFF_MAX)

/-- The call, when it is a delivery, hands over a unit that is an object in
memory. -/
def real_op : Op → Bool
  | .video_frame d => real_unit d
  | _ => true

/-- Every `malloc` made by the call returns a block. -/
def alloc_ok_op : Op → Bool
  | .video_frame d => decide (d.malloc = malloc_ok)
  | _ => true

/-- The call is one of the four reads. -/
def read_op : Op → Bool
  | .get_frame_ex _ _ _ => true
  | .get_frame _ _ => true
  | .get_frame_seq => true
  | .get_iframe _ _ => true
  | .has_iframe => true
  | _ => false

/-- The call is a delivery that stores a unit into the latest slot: it gets
past line 77 (`buf_size` is not 0) and the `malloc` of line 102 returns a
block. -/
def stores_unit : Op → Bool
  | .video_frame d => decide (d.buf_size ≠ 0) && d.malloc.latest_ok
  | _ => false

/-- The header and I-frame slots hold what the sizes next to them say: a
cached header is a unit of NAL type 7 or 8 of the recorded size, and an
I-frame block has the recorded size, at least six bytes, and opens with a
NAL unit of type 7 or 8. -/
def slots_consistent (s : PythonSession) : Prop :=
  (∀ P, s.sps_pps = some P →
    s.sps_pps_size = P.length ∧ P.length ≤ PTRDIFF_MAX ∧
    (get_first_nal_type P P.length = 7 ∨ get_first_nal_type P P.length = 8)) ∧
  (∀ b, s.iframe = some b →
    b.length = s.iframe_size ∧ 6 ≤ b.length ∧
    (get_first_nal_type b b.length = 7 ∨ get_first_nal_type b b.length = 8))

/-- A raised have-keyframe flag is backed by an I-frame block. -/
def flag_backed (s : PythonSession) : Prop :=
  s.have_iframe = true → s.iframe.isSome = true

/-- The NAL unit types found in a byte stream, in order: each occurrence of
the start code `00 00 01` (the tail of `00 00 00 01` included) followed by a
header byte contributes the low five bits of that byte.  This follows the
wording "a start-code-prefixed NAL unit of type t"; it is not part of the
source. -/
def nal_types : List Nat → List Nat
  | [] => []
  | a :: rest =>
    match a, rest with
    | 0, 0 :: 1 :: h :: _ => (h &&& 0x1f) :: nal_types rest
    | _, _ => nal_types rest

/-- The byte stream contains, in this order, a start-code-prefixed NAL unit
of type 7, one of type 8 and one of type 5. -/
def sps_pps_idr (bytes : List Nat) : Prop :=
  List.Sublist [7, 8, 5] (nal_types bytes)

/-- A 10-byte unit beginning `00 00 00 01 67`. -/
def scenario_A : List Nat := [0, 0, 0, 1, 0x67, 0x42, 0xc0, 0x1f, 0x8c, 0x8d]

/-- A 100-byte unit beginning `00 00 00 01 65`. -/
def scenario_B : List Nat := [0, 0, 0, 1, 0x65] ++ List.replicate 95 0x11

/-! ## The classifier -/

/-- The classifier on a buffer of at least five bytes that opens with the
four-byte start code. -/
theorem nal_type_start4 (h : Nat) (rest : List Nat) (n : Nat) (hn : 5 ≤ n) :
    get_first_nal_type (0 :: 0 :: 0 :: 1 :: h :: rest) n = ((h &&& 0x1f : Nat) : Int) := by
  have h5 : ¬ n < 5 := by omega
  simp [get_first_nal_type, byte_at, h5]

/-- The classifier on a buffer of at least five bytes that opens with the
three-byte start code. -/
theorem nal_type_start3 (h : Nat) (rest : List Nat) (n : Nat) (hn : 5 ≤ n) :
    get_first_nal_type (0 :: 0 :: 1 :: h :: rest) n = ((h &&& 0x1f : Nat) : Int) := by
  have h5 : ¬ n < 5 := by omega
  simp [get_first_nal_type, byte_at, h5]

/-- The classifier never answers outside `-1 .. 31`. -/
theorem nal_type_range (buf : List Nat) (n : Nat) :
    -1 ≤ get_first_nal_type buf n ∧ get_first_nal_type buf n ≤ 31 := by
  have hb : ∀ x : Nat, x &&& 0x1f ≤ 31 := fun x => Nat.and_le_right
  unfold get_first_nal_type
  split_ifs
  · omega
  · have := hb (byte_at buf 4); omega
  · have := hb (byte_at buf 3); omega
  · omega

/-- C5, as amended: for every buffer of at least five bytes that begins at
offset 0 with the start code `00 00 00 01` or `00 00 01`, followed by the
header byte `h`, `get_first_nal_type` returns the low five bits of `h`. -/
theorem C5_classifier_result (buf : List Nat) (h : Nat) (rest : List Nat)
    (hlen : 5 ≤ buf.length)
    (hstart : buf = [0, 0, 0, 1] ++ h :: rest ∨ buf = [0, 0, 1] ++ h :: rest) :
    get_first_nal_type buf buf.length = ((h &&& 0x1f : Nat) : Int) := by
  rcases hstart with rfl | rfl
  · exact nal_type_start4 h rest _ hlen
  · exact nal_type_start3 h rest _ hlen

/-- C5, witness: the five-byte buffer `00 00 01 65 88` is classified as
type 5. -/
theorem C5_classifier_result_witness :
    get_first_nal_type [0, 0, 1, 0x65, 0x88] [0, 0, 1, 0x65, 0x88].length
      = ((0x65 &&& 0x1f : Nat) : Int) :=
  C5_classifier_result [0, 0, 1, 0x65, 0x88] 0x65 [0x88] (by decide) (Or.inr rfl)

/-- C5, counterexample: the four-byte buffer `00 00 01 65` begins with a
start code and has a header byte after it (whose low five bits are 5), yet
the classifier answers `-1`. -/
theorem C5_classifier_result_counterexample :
    [0, 0, 1, 0x65] = [0, 0, 1] ++ 0x65 :: ([] : List Nat) ∧
    ((0x65 &&& 0x1f : Nat) : Int) = 5 ∧
    get_first_nal_type [0, 0, 1, 0x65] [0, 0, 1, 0x65].length = -1 := by
  decide

/-- C6: `get_first_nal_type` is a total function; on a buffer it answers
`-1` exactly when the buffer has fewer than five bytes or begins with
neither `00 00 00 01` nor `00 00 01`, and in every other case its answer
lies in `0 .. 31`. -/
theorem C6_classifier_sentinel (buf : List Nat) :
    (get_first_nal_type buf buf.length = -1 ↔
      (buf.length < 5 ∨ ¬ ([0, 0, 0, 1] <+: buf ∨ [0, 0, 1] <+: buf))) ∧
    (¬ (buf.length < 5 ∨ ¬ ([0, 0, 0, 1] <+: buf ∨ [0, 0, 1] <+: buf)) →
      0 ≤ get_first_nal_type buf buf.length ∧ get_first_nal_type buf buf.length ≤ 31) := by
  have key : get_first_nal_type buf buf.length = -1 ↔
      (buf.length < 5 ∨ ¬ ([0, 0, 0, 1] <+: buf ∨ [0, 0, 1] <+: buf)) := by
    rcases buf with _ | ⟨a, _ | ⟨b, _ | ⟨c, _ | ⟨d, _ | ⟨e, rest⟩⟩⟩⟩⟩
    · simp [get_first_nal_type]
    · simp [get_first_nal_type]
    · simp [get_first_nal_type]
    · simp [get_first_nal_type]
    · simp [get_first_nal_type]
    · have h5 : ¬ (a :: b :: c :: d :: e :: rest).length < 5 := by simp
      have hne : ∀ x : Nat, ((x &&& 0x1f : Nat) : Int) ≠ -1 := fun x => by omega
      simp only [get_first_nal_type, byte_at, h5, if_false, List.getD_cons_zero,
        List.getD_cons_succ, false_or, List.cons_prefix_cons, List.nil_prefix, and_true]
      split_ifs with h1 h2
      · simp [hne, h1]
      · have h2' : a = 0 ∧ b = 0 ∧ c = 1 := h2
        simp [hne, h2']
      · constructor
        · intro _ hc
          rcases hc with hc | hc
          · exact h1 ⟨hc.1.symm, hc.2.1.symm, hc.2.2.1.symm, hc.2.2.2.symm⟩
          · exact h2 ⟨hc.1.symm, hc.2.1.symm, hc.2.2.symm⟩
        · intro _; rfl
  refine ⟨key, fun hn => ?_⟩
  have hne : get_first_nal_type buf buf.length ≠ -1 := fun hc => hn (key.mp hc)
  have hr := nal_type_range buf buf.length
  omega

/-- C8: a delivery with `buf_size == 0` returns `true` and hands back the
session it was given, whatever the buffer pointer, the loss counter, the
recovery flag and the allocator would do. -/
theorem C8_zero_length_delivery (sess : PythonSession) (buf : List Nat) (frames_lost : Int)
    (frame_recovered : Bool) (m : MallocOutcome) :
    video_frame_cb buf 0 frames_lost frame_recovered m sess = (true, sess) ∧
    (chiaki_python_session_get_frame_seq
        (video_frame_cb buf 0 frames_lost frame_recovered m sess).2).1
      = (chiaki_python_session_get_frame_seq sess).1 ∧
    (∀ buffer cap seq_out,
      chiaki_python_session_get_frame_ex
          (video_frame_cb buf 0 frames_lost frame_recovered m sess).2 buffer cap seq_out
        = chiaki_python_session_get_frame_ex sess buffer cap seq_out) := by
  have h : video_frame_cb buf 0 frames_lost frame_recovered m sess = (true, sess) := by
    simp [video_frame_cb]
  refine ⟨h, ?_, ?_⟩
  · rw [h]
  · intro buffer cap seq_out
    rw [h]

/-! ## The callback, block by block -/

/-- Storing the latest frame leaves the header and I-frame slots alone. -/
theorem store_latest_frame (buf : List Nat) (n : Nat) (m : MallocOutcome) (s : PythonSession) :
    (store_latest buf n m s).sps_pps = s.sps_pps ∧
    (store_latest buf n m s).sps_pps_size = s.sps_pps_size ∧
    (store_latest buf n m s).iframe = s.iframe ∧
    (store_latest buf n m s).iframe_size = s.iframe_size ∧
    (store_latest buf n m s).have_iframe = s.have_iframe ∧
    (store_latest buf n m s).connected = s.connected ∧
    (store_latest buf n m s).quit = s.quit := by
  unfold store_latest
  split_ifs <;> simp

/-- Storing the header leaves the latest-frame and I-frame slots alone. -/
theorem store_header_frame (buf : List Nat) (n : Nat) (t : Int) (m : MallocOutcome)
    (s : PythonSession) :
    (store_header buf n t m s).latest_frame = s.latest_frame ∧
    (store_header buf n t m s).latest_frame_size = s.latest_frame_size ∧
    (store_header buf n t m s).frame_seq = s.frame_seq ∧
    (store_header buf n t m s).iframe = s.iframe ∧
    (store_header buf n t m s).iframe_size = s.iframe_size ∧
    (store_header buf n t m s).have_iframe = s.have_iframe ∧
    (store_header buf n t m s).connected = s.connected ∧
    (store_header buf n t m s).quit = s.quit := by
  unfold store_header
  simp only []
  split_ifs <;> simp

/-- Storing the I-frame leaves the latest-frame and header slots alone. -/
theorem store_iframe_frame (buf : List Nat) (n : Nat) (t : Int) (m : MallocOutcome)
    (s : PythonSession) :
    (store_iframe buf n t m s).latest_frame = s.latest_frame ∧
    (store_iframe buf n t m s).latest_frame_size = s.latest_frame_size ∧
    (store_iframe buf n t m s).frame_seq = s.frame_seq ∧
    (store_iframe buf n t m s).sps_pps = s.sps_pps ∧
    (store_iframe buf n t m s).sps_pps_size = s.sps_pps_size ∧
    (store_iframe buf n t m s).connected = s.connected ∧
    (store_iframe buf n t m s).quit = s.quit := by
  unfold store_iframe
  simp only []
  split
  · simp
  · split_ifs <;> simp

/-- A unit whose type is neither 7 nor 8 leaves the header slot alone. -/
theorem store_header_other (buf : List Nat) (n : Nat) (t : Int) (m : MallocOutcome)
    (s : PythonSession) (h7 : t ≠ 7) (h8 : t ≠ 8) :
    store_header buf n t m s = s := by
  simp [store_header, h7, h8]

/-- When the guard of the I-frame block fails, the flag keeps its value, and
so do the I-frame bytes and size unless the failure is that of `malloc`. -/
theorem store_iframe_no_synthesis (buf : List Nat) (n : Nat) (t : Int) (m : MallocOutcome)
    (s : PythonSession) (hg : synthesis_guard n t m s = false) :
    (store_iframe buf n t m s).have_iframe = s.have_iframe ∧
    (store_iframe buf n t m s).iframe_size = s.iframe_size ∧
    (m.iframe_ok = true → store_iframe buf n t m s = s) := by
  unfold synthesis_guard at hg
  unfold store_iframe
  simp only []
  cases hs : s.sps_pps with
  | none => simp
  | some hdr =>
    simp only [hs, Option.isSome_some, Bool.and_true] at hg
    simp only []
    split_ifs with h1 h2 h3
    · exfalso
      simp only [Bool.and_eq_true] at h1
      simp [h1.1, h1.2, h2, h3] at hg
    · refine ⟨rfl, rfl, fun h => absurd h h3⟩
    · simp
    · simp

/-- When the guard of the I-frame block holds, the block stores the cached
header followed by the unit and raises the flag. -/
theorem store_iframe_synthesis (buf : List Nat) (n : Nat) (t : Int) (m : MallocOutcome)
    (s : PythonSession) (hdr : List Nat) (hs : s.sps_pps = some hdr)
    (hg : synthesis_guard n t m s = true) :
    store_iframe buf n t m s =
      { s with
        iframe := some ((hdr.take s.sps_pps_size ++ buf.take n).take
          ((s.sps_pps_size + n) % SIZE_T_MOD))
        iframe_size := (s.sps_pps_size + n) % SIZE_T_MOD
        have_iframe := true } := by
  unfold synthesis_guard at hg
  simp only [hs, Option.isSome_some, Bool.and_true, Bool.and_eq_true, decide_eq_true_eq] at hg
  obtain ⟨⟨⟨h1, h2⟩, h3⟩, h4⟩ := hg
  unfold store_iframe
  simp only [hs]
  have h12 : (((t == 5) || decide (n > 50000)) && decide (s.sps_pps_size > 0)) = true := by
    simp only [Bool.and_eq_true, decide_eq_true_eq]
    exact ⟨h1, h2⟩
  simp only [h12, if_true, h3, h4]

/-- A delivery that does not store a complete I-frame keeps the flag and the
I-frame size. -/
theorem deliver_no_synthesis (s : PythonSession) (d : Delivery)
    (h : delivery_synthesizes s d = false) :
    (deliver s d).have_iframe = s.have_iframe ∧ (deliver s d).iframe_size = s.iframe_size := by
  unfold deliver video_frame_cb
  by_cases h0 : d.buf_size = 0
  · simp [h0]
  · simp only [h0, if_false]
    have hg : synthesis_guard d.buf_size (get_first_nal_type d.buf d.buf_size) d.malloc
        (store_header d.buf d.buf_size (get_first_nal_type d.buf d.buf_size) d.malloc
          (store_latest d.buf d.buf_size d.malloc s)) = false := by
      simpa [delivery_synthesizes, h0] using h
    have h1 := store_iframe_no_synthesis d.buf d.buf_size _ d.malloc _ hg
    have h2 := store_header_frame d.buf d.buf_size (get_first_nal_type d.buf d.buf_size)
      d.malloc (store_latest d.buf d.buf_size d.malloc s)
    have h3 := store_latest_frame d.buf d.buf_size d.malloc s
    refine ⟨?_, ?_⟩
    · rw [h1.1, h2.2.2.2.2.2.1, h3.2.2.2.2.1]
    · rw [h1.2.1, h2.2.2.2.2.1, h3.2.2.2.1]

/-- Deliveries none of which stores a complete I-frame keep the flag. -/
theorem deliver_all_no_synthesis (ds : List Delivery) (s : PythonSession)
    (h : no_synthesis s ds = true) :
    (deliver_all s ds).have_iframe = s.have_iframe := by
  induction ds generalizing s with
  | nil => rfl
  | cons d ds ih =>
    simp only [no_synthesis, Bool.and_eq_true, Bool.not_eq_true'] at h
    obtain ⟨hd, hds⟩ := h
    have := ih (deliver s d) hds
    simp only [deliver_all, List.foldl_cons] at this ⊢
    rw [this, (deliver_no_synthesis s d hd).1]

/-- With the flag down `chiaki_python_session_get_iframe` returns 0 and
leaves the destination as it is. -/
theorem get_iframe_flag_down (s : PythonSession) (h : s.have_iframe = false)
    (buffer : Option (List Nat)) (cap : Nat) :
    chiaki_python_session_get_iframe s buffer cap = { ret := 0, buffer := buffer, sess := s } := by
  unfold chiaki_python_session_get_iframe
  cases buffer with
  | none => rfl
  | some dst =>
    cases hf : s.iframe with
    | none => rfl
    | some f => simp [h]

/-! ## Reading the latest frame -/

/-- C4: on a session holding a latest unit `frame` of length `n`, with a
destination `dst` of capacity `cap`: when `cap < n` the call returns 0 and
leaves the destination and the `seq_out` cell as they were; when `cap >= n`
it returns `n`, the first `n` destination bytes are the latest unit, the
bytes past `n` are as they were, and a non-NULL `seq_out` receives
`frame_seq`. -/
theorem C4_capacity_law (sess : PythonSession) (frame dst : List Nat) (cap : Nat)
    (seq_out : Option Nat)
    (hframe : sess.latest_frame = some frame)
    (hsize : sess.latest_frame_size = frame.length)
    (hdst : cap ≤ dst.length) :
    (cap < frame.length →
      chiaki_python_session_get_frame_ex sess (some dst) cap seq_out
        = { ret := 0, buffer := some dst, seq_out := seq_out, sess := sess }) ∧
    (frame.length ≤ cap →
      chiaki_python_session_get_frame_ex sess (some dst) cap seq_out
        = { ret := frame.length, buffer := some (frame ++ dst.drop frame.length),
            seq_out := seq_out.map (fun _ => sess.frame_seq), sess := sess } ∧
      (frame ++ dst.drop frame.length).length = dst.length ∧
      (frame ++ dst.drop frame.length).take frame.length = frame ∧
      (frame ++ dst.drop frame.length).drop frame.length = dst.drop frame.length) := by
  constructor
  · intro hlt
    have : ¬ frame.length ≤ cap := by omega
    simp [chiaki_python_session_get_frame_ex, hframe, hsize, this]
  · intro hle
    refine ⟨?_, ?_, ?_, ?_⟩
    · simp [chiaki_python_session_get_frame_ex, hframe, hsize, hle]
    · simp only [List.length_append, List.length_drop]
      omega
    · simp
    · simp

/-- C4, witness: after the three-byte unit `01 02 03` has been delivered to a
fresh session, a read into a five-byte destination returns 3, writes the
unit over the first three bytes and reports sequence number 1. -/
theorem C4_capacity_law_witness :
    chiaki_python_session_get_frame_ex
        (deliver calloc_session
          { buf := [1, 2, 3], buf_size := 3, frames_lost := 0, frame_recovered := false,
            malloc := malloc_ok })
        (some [9, 9, 9, 9, 9]) 5 (some 0)
      = { ret := 3, buffer := some [1, 2, 3, 9, 9], seq_out := some 1,
          sess := deliver calloc_session
            { buf := [1, 2, 3], buf_size := 3, frames_lost := 0, frame_recovered := false,
              malloc := malloc_ok } } :=
  ((C4_capacity_law
    (deliver calloc_session
      { buf := [1, 2, 3], buf_size := 3, frames_lost := 0, frame_recovered := false,
        malloc := malloc_ok })
    [1, 2, 3] [9, 9, 9, 9, 9] 5 (some 0) (by decide) (by decide) (by decide)).2
      (by decide)).1

/-! ## Clearing the I-frame -/

/-- C7: `chiaki_python_session_clear_iframe` lowers the have-keyframe flag
and changes no other field; from then on `chiaki_python_session_has_iframe`
answers false and `chiaki_python_session_get_iframe` returns 0 for every
destination and capacity, and both stay so after any further deliveries none
of which stores a complete I-frame. -/
theorem C7_clear_law (sess : PythonSession) (ds : List Delivery)
    (hno : no_synthesis (chiaki_python_session_clear_iframe sess) ds = true) :
    (chiaki_python_session_clear_iframe sess).have_iframe = false ∧
    (chiaki_python_session_has_iframe (chiaki_python_session_clear_iframe sess)).1 = false ∧
    (∀ buffer cap,
      (chiaki_python_session_get_iframe
        (chiaki_python_session_clear_iframe sess) buffer cap).ret = 0) ∧
    ((chiaki_python_session_clear_iframe sess).latest_frame = sess.latest_frame ∧
      (chiaki_python_session_clear_iframe sess).latest_frame_size = sess.latest_frame_size ∧
      (chiaki_python_session_clear_iframe sess).frame_seq = sess.frame_seq ∧
      (chiaki_python_session_clear_iframe sess).sps_pps = sess.sps_pps ∧
      (chiaki_python_session_clear_iframe sess).sps_pps_size = sess.sps_pps_size ∧
      (chiaki_python_session_clear_iframe sess).iframe = sess.iframe ∧
      (chiaki_python_session_clear_iframe sess).iframe_size = sess.iframe_size ∧
      (chiaki_python_session_clear_iframe sess).connected = sess.connected ∧
      (chiaki_python_session_clear_iframe sess).quit = sess.quit) ∧
    (deliver_all (chiaki_python_session_clear_iframe sess) ds).have_iframe = false ∧
    (chiaki_python_session_has_iframe
      (deliver_all (chiaki_python_session_clear_iframe sess) ds)).1 = false ∧
    (∀ buffer cap,
      (chiaki_python_session_get_iframe
        (deliver_all (chiaki_python_session_clear_iframe sess) ds) buffer cap).ret = 0) := by
  have hc : (chiaki_python_session_clear_iframe sess).have_iframe = false := rfl
  have hd : (deliver_all (chiaki_python_session_clear_iframe sess) ds).have_iframe = false := by
    rw [deliver_all_no_synthesis ds _ hno, hc]
  refine ⟨hc, hc, ?_, ⟨rfl, rfl, rfl, rfl, rfl, rfl, rfl, rfl, rfl⟩, hd, hd, ?_⟩
  · intro buffer cap
    rw [get_iframe_flag_down _ hc]
  · intro buffer cap
    rw [get_iframe_flag_down _ hd]

/-- C7, witness: a session that holds a keyframe (header `00 00 00 01 67 42`
then IDR unit `00 00 00 01 65 88`) is cleared; a delta unit, an empty
delivery and an IDR unit whose I-frame allocation fails follow, and the flag
is still down. -/
theorem C7_clear_law_witness :
    (deliver_all calloc_session
      [{ buf := [0, 0, 0, 1, 0x67, 0x42], buf_size := 6, frames_lost := 0,
         frame_recovered := false, malloc := malloc_ok },
       { buf := [0, 0, 0, 1, 0x65, 0x88], buf_size := 6, frames_lost := 0,
         frame_recovered := false, malloc := malloc_ok }]).have_iframe = true ∧
    (deliver_all
      (chiaki_python_session_clear_iframe
        (deliver_all calloc_session
          [{ buf := [0, 0, 0, 1, 0x67, 0x42], buf_size := 6, frames_lost := 0,
             frame_recovered := false, malloc := malloc_ok },
           { buf := [0, 0, 0, 1, 0x65, 0x88], buf_size := 6, frames_lost := 0,
             frame_recovered := false, malloc := malloc_ok }]))
      [{ buf := [0, 0, 0, 1, 0x41, 0x9a], buf_size := 6, frames_lost := 0,
         frame_recovered := false, malloc := malloc_ok },
       { buf := [], buf_size := 0, frames_lost := 0,
         frame_recovered := false, malloc := malloc_ok },
       { buf := [0, 0, 0, 1, 0x65, 0x77], buf_size := 6, frames_lost := 1,
         frame_recovered := true,
         malloc := { latest_ok := true, sps_pps_ok := true, iframe_ok := false } }]).have_iframe
      = false :=
  ⟨by decide,
   (C7_clear_law
      (deliver_all calloc_session
        [{ buf := [0, 0, 0, 1, 0x67, 0x42], buf_size := 6, frames_lost := 0,
           frame_recovered := false, malloc := malloc_ok },
         { buf := [0, 0, 0, 1, 0x65, 0x88], buf_size := 6, frames_lost := 0,
           frame_recovered := false, malloc := malloc_ok }])
      [{ buf := [0, 0, 0, 1, 0x41, 0x9a], buf_size := 6, frames_lost := 0,
         frame_recovered := false, malloc := malloc_ok },
       { buf := [], buf_size := 0, frames_lost := 0,
         frame_recovered := false, malloc := malloc_ok },
       { buf := [0, 0, 0, 1, 0x65, 0x77], buf_size := 6, frames_lost := 1,
         frame_recovered := true,
         malloc := { latest_ok := true, sps_pps_ok := true, iframe_ok := false } }]
      (by decide)).2.2.2.2.1⟩

/-! ## Synthesis of the keyframe -/

/-- Reading the keyframe when the flag is up, a block is held and the
destination is large enough. -/
theorem get_iframe_flag_up (s : PythonSession) (frame dst : List Nat) (cap : Nat)
    (hflag : s.have_iframe = true) (hframe : s.iframe = some frame)
    (hcap : s.iframe_size ≤ cap) :
    chiaki_python_session_get_iframe s (some dst) cap =
      { ret := s.iframe_size
        buffer := some (frame.take s.iframe_size ++ dst.drop s.iframe_size)
        sess := s } := by
  simp [chiaki_python_session_get_iframe, hframe, hflag, hcap]

/-- What `chiaki_python_session_has_iframe` returns is the flag. -/
theorem has_iframe_fst (s : PythonSession) :
    (chiaki_python_session_has_iframe s).1 = s.have_iframe := rfl

/-- The callback on a non-empty unit is the three blocks run in turn. -/
theorem video_frame_cb_blocks (buf : List Nat) (n : Nat) (fl : Int) (fr : Bool)
    (m : MallocOutcome) (s : PythonSession) (hn : n ≠ 0) :
    video_frame_cb buf n fl fr m s =
      (true, store_iframe buf n (get_first_nal_type buf n) m
        (store_header buf n (get_first_nal_type buf n) m (store_latest buf n m s))) := by
  simp [video_frame_cb, hn]

/-- The length of `sps_unit n`. -/
theorem sps_unit_length (n : Nat) : (sps_unit n).length = n + 5 := by
  simp only [sps_unit, List.length_cons, List.length_replicate]

/-- The unit `sps_unit n` is classified as type 7. -/
theorem sps_unit_type (n : Nat) : get_first_nal_type (sps_unit n) (sps_unit n).length = 7 := by
  have h := nal_type_start4 0x67 (List.replicate n 0) (sps_unit n).length
    (by rw [sps_unit_length]; omega)
  have h7 : ((0x67 &&& 0x1f : Nat) : Int) = 7 := by decide
  rw [← h7, ← h]
  rfl

/-- The length of `raw_unit n`. -/
theorem raw_unit_length (n : Nat) : (raw_unit n).length = n + 1 := by
  simp only [raw_unit, List.length_cons, List.length_replicate]

/-- The unit `raw_unit n` cannot be classified. -/
theorem raw_unit_type (n : Nat) : get_first_nal_type (raw_unit n) (raw_unit n).length = -1 := by
  unfold get_first_nal_type
  split_ifs with h1 h2 h3
  · rfl
  · exact absurd h2.1 (by simp [raw_unit, byte_at])
  · exact absurd h3.1 (by simp [raw_unit, byte_at])
  · rfl

/-- A whole unit of type 7 or 8, delivered with every allocation succeeding:
it becomes the latest frame and the cached header, and the I-frame block then
runs against that new header. -/
theorem deliver_header_unit (s : PythonSession) (U : List Nat) (hne : U ≠ [])
    (ht : get_first_nal_type U U.length = 7 ∨ get_first_nal_type U U.length = 8) :
    deliver s (whole U) =
      store_iframe U U.length (get_first_nal_type U U.length) malloc_ok
        { s with
          latest_frame := some U
          latest_frame_size := U.length
          frame_seq := (s.frame_seq + 1) % UINT64_MOD
          sps_pps := some U
          sps_pps_size := U.length } := by
  have hn : U.length ≠ 0 := fun h => hne (List.length_eq_zero.mp h)
  unfold deliver whole
  simp only [video_frame_cb_blocks U U.length 0 false malloc_ok s hn]
  congr 1
  rcases ht with ht | ht <;>
    simp [store_header, store_latest, malloc_ok, ht]

/-- A whole unit of type 7 or 8 and of more than 50000 bytes, twice of which
fit in `MAX_FRAME_SIZE`: the keyframe is the unit followed by itself. -/
theorem deliver_large_header_unit (s : PythonSession) (U : List Nat)
    (ht : get_first_nal_type U U.length = 7 ∨ get_first_nal_type U U.length = 8)
    (hlarge : 50000 < U.length) (hfit : U.length + U.length ≤ MAX_FRAME_SIZE) :
    (deliver s (whole U)).have_iframe = true ∧
    (deliver s (whole U)).iframe = some (U ++ U) ∧
    (deliver s (whole U)).iframe_size = U.length + U.length ∧
    (deliver s (whole U)).sps_pps = some U := by
  have hne : U ≠ [] := by
    intro h
    rw [h] at hlarge
    simp at hlarge
  have hmod : (U.length + U.length) % SIZE_T_MOD = U.length + U.length := by
    apply Nat.mod_eq_of_lt
    unfold MAX_FRAME_SIZE at hfit
    unfold SIZE_T_MOD
    omega
  rw [deliver_header_unit s U hne ht]
  rw [store_iframe_synthesis U U.length _ malloc_ok _ U rfl
    (by simp [synthesis_guard, hlarge, hmod, hfit, malloc_ok]; omega)]
  simp [hmod]

/-- C1, as amended: on a session whose cached header `P` is present and
non-empty, a non-empty unit `U` that is an I-frame (first NAL type 5, or more
than 50000 bytes) and whose first NAL type is neither 7 nor 8, with
`len P + len U <= MAX_FRAME_SIZE`, is delivered with the I-frame allocation
succeeding.  Afterwards `chiaki_python_session_has_iframe` answers true and
`chiaki_python_session_get_iframe` with capacity at least `len P + len U`
returns `len P + len U` and writes exactly `P ++ U` at the front of the
destination. -/
theorem C1_keyframe_synthesis (sess : PythonSession) (P U : List Nat) (frames_lost : Int)
    (frame_recovered : Bool) (m : MallocOutcome)
    (hP : sess.sps_pps = some P) (hPsize : sess.sps_pps_size = P.length) (hPne : P ≠ [])
    (hUne : U ≠ [])
    (hkey : get_first_nal_type U U.length = 5 ∨ 50000 < U.length)
    (h7 : get_first_nal_type U U.length ≠ 7) (h8 : get_first_nal_type U U.length ≠ 8)
    (hbound : P.length + U.length ≤ MAX_FRAME_SIZE)
    (hm : m.iframe_ok = true) :
    (chiaki_python_session_has_iframe
      (video_frame_cb U U.length frames_lost frame_recovered m sess).2).1 = true ∧
    (∀ (dst : List Nat) (cap : Nat), P.length + U.length ≤ cap →
      chiaki_python_session_get_iframe
          (video_frame_cb U U.length frames_lost frame_recovered m sess).2 (some dst) cap
        = { ret := P.length + U.length
            buffer := some (P ++ U ++ dst.drop (P.length + U.length))
            sess := (video_frame_cb U U.length frames_lost frame_recovered m sess).2 }) := by
  have hn : U.length ≠ 0 := fun h => hUne (List.length_eq_zero.mp h)
  have hPpos : 0 < P.length := List.length_pos.mpr hPne
  have hmod : (P.length + U.length) % SIZE_T_MOD = P.length + U.length := by
    apply Nat.mod_eq_of_lt
    unfold MAX_FRAME_SIZE at hbound
    unfold SIZE_T_MOD
    omega
  have hl := store_latest_frame U U.length m sess
  have hs1 : (store_latest U U.length m sess).sps_pps = some P := by rw [hl.1, hP]
  have hs2 : (store_latest U U.length m sess).sps_pps_size = P.length := by rw [hl.2.1, hPsize]
  have hguard : synthesis_guard U.length (get_first_nal_type U U.length) m
      (store_latest U U.length m sess) = true := by
    simp only [synthesis_guard, hs1, hs2, hmod, Option.isSome_some, Bool.and_true,
      Bool.and_eq_true, Bool.or_eq_true, decide_eq_true_eq, beq_iff_eq]
    exact ⟨⟨⟨hkey, hPpos⟩, hbound⟩, hm⟩
  have hstep : (video_frame_cb U U.length frames_lost frame_recovered m sess).2 =
      { store_latest U U.length m sess with
        iframe := some (P ++ U)
        iframe_size := P.length + U.length
        have_iframe := true } := by
    rw [video_frame_cb_blocks U U.length frames_lost frame_recovered m sess hn,
      store_header_other U U.length _ m _ h7 h8,
      store_iframe_synthesis U U.length _ m _ P hs1 hguard]
    simp [hs2, hmod]
  refine ⟨?_, ?_⟩
  · rw [hstep]
    rfl
  · intro dst cap hcap
    rw [get_iframe_flag_up _ (P ++ U) dst cap (by rw [hstep]) (by rw [hstep])
      (by rw [hstep]; exact hcap)]
    rw [hstep]
    have htake : (P ++ U).take (P.length + U.length) = P ++ U :=
      List.take_of_length_le (by simp)
    simp only [htake, List.append_assoc]

/-- C1, witness: header `00 00 00 01 67 42` then IDR unit
`00 00 00 01 65 88`; the keyframe read back is the twelve bytes of the two
units in that order. -/
theorem C1_keyframe_synthesis_witness :
    (chiaki_python_session_get_iframe
      (video_frame_cb [0, 0, 0, 1, 0x65, 0x88] 6 0 false malloc_ok
        (deliver calloc_session (whole [0, 0, 0, 1, 0x67, 0x42]))).2
      (some [9, 9, 9, 9, 9, 9, 9, 9, 9, 9, 9, 9, 9, 9]) 14).ret = 12 ∧
    (chiaki_python_session_get_iframe
      (video_frame_cb [0, 0, 0, 1, 0x65, 0x88] 6 0 false malloc_ok
        (deliver calloc_session (whole [0, 0, 0, 1, 0x67, 0x42]))).2
      (some [9, 9, 9, 9, 9, 9, 9, 9, 9, 9, 9, 9, 9, 9]) 14).buffer
      = some [0, 0, 0, 1, 0x67, 0x42, 0, 0, 0, 1, 0x65, 0x88, 9, 9] := by
  have h := (C1_keyframe_synthesis (deliver calloc_session (whole [0, 0, 0, 1, 0x67, 0x42]))
    [0, 0, 0, 1, 0x67, 0x42] [0, 0, 0, 1, 0x65, 0x88] 0 false malloc_ok
    (by decide) (by decide) (by decide) (by decide) (by decide) (by decide) (by decide)
    (by decide) (by decide)).2 [9, 9, 9, 9, 9, 9, 9, 9, 9, 9, 9, 9, 9, 9] 14 (by decide)
  constructor
  · exact congrArg IframeResult.ret h
  · exact congrArg IframeResult.buffer h

/-- C1, counterexample: the cached header is the six-byte unit
`00 00 00 01 67 42` and the delivered unit `U` is `sps_unit 49996`, 50001
bytes of NAL type 7.  `U` counts as an I-frame by its size and
`6 + 50001 <= MAX_FRAME_SIZE`, yet the keyframe read back has
`100002` bytes, `U ++ U`, not the `50007` bytes of the old header followed
by `U`. -/
theorem C1_keyframe_synthesis_counterexample :
    (deliver calloc_session (whole [0, 0, 0, 1, 0x67, 0x42])).sps_pps
      = some [0, 0, 0, 1, 0x67, 0x42] ∧
    (deliver calloc_session (whole [0, 0, 0, 1, 0x67, 0x42])).sps_pps_size = 6 ∧
    (sps_unit 49996).length = 50001 ∧
    50000 < (sps_unit 49996).length ∧
    6 + (sps_unit 49996).length ≤ MAX_FRAME_SIZE ∧
    (chiaki_python_session_has_iframe
      (deliver (deliver calloc_session (whole [0, 0, 0, 1, 0x67, 0x42]))
        (whole (sps_unit 49996)))).1 = true ∧
    (chiaki_python_session_get_iframe
      (deliver (deliver calloc_session (whole [0, 0, 0, 1, 0x67, 0x42]))
        (whole (sps_unit 49996)))
      (some (List.replicate MAX_FRAME_SIZE 0)) MAX_FRAME_SIZE).ret = 100002 ∧
    (deliver (deliver calloc_session (whole [0, 0, 0, 1, 0x67, 0x42]))
        (whole (sps_unit 49996))).iframe = some (sps_unit 49996 ++ sps_unit 49996) := by
  have hlen : (sps_unit 49996).length = 50001 := sps_unit_length 49996
  have hmax : MAX_FRAME_SIZE = 4194304 := by decide
  have hfit : (sps_unit 49996).length + (sps_unit 49996).length ≤ MAX_FRAME_SIZE := by omega
  obtain ⟨h1, h2, h3, _⟩ := deliver_large_header_unit
    (deliver calloc_session (whole [0, 0, 0, 1, 0x67, 0x42])) (sps_unit 49996)
    (Or.inl (sps_unit_type 49996)) (by omega) hfit
  refine ⟨by decide, by decide, hlen, by omega, by omega, ?_, ?_, h2⟩
  · rw [has_iframe_fst]
    exact h1
  rw [get_iframe_flag_up _ _ _ _ h1 h2 (by rw [h3]; exact hfit), h3, hlen]

/-! ## The size bound -/

/-- The I-frame block does nothing when the combined size is over the
bound. -/
theorem store_iframe_over_bound (buf : List Nat) (n : Nat) (t : Int) (m : MallocOutcome)
    (s : PythonSession)
    (hover : ¬ (s.sps_pps_size + n) % SIZE_T_MOD ≤ MAX_FRAME_SIZE) :
    store_iframe buf n t m s = s := by
  unfold store_iframe
  simp only []
  split
  · rfl
  · split_ifs <;> rfl

/-- The I-frame block does nothing on a unit that is neither of type 5 nor
larger than 50000 bytes. -/
theorem store_iframe_not_key (buf : List Nat) (n : Nat) (t : Int) (m : MallocOutcome)
    (s : PythonSession) (h5 : t ≠ 5) (hsmall : n ≤ 50000) :
    store_iframe buf n t m s = s := by
  have hn : ¬ n > 50000 := by omega
  unfold store_iframe
  simp only []
  split
  · rfl
  · simp [h5, hn]

/-- A whole unit of type 7 or 8, twice of which do not fit in
`MAX_FRAME_SIZE`, becomes the latest frame and the cached header and leaves
the I-frame slot alone. -/
theorem deliver_oversize_header_unit (s : PythonSession) (U : List Nat)
    (ht : get_first_nal_type U U.length = 7 ∨ get_first_nal_type U U.length = 8)
    (hover : MAX_FRAME_SIZE < U.length + U.length)
    (hfits : U.length + U.length < SIZE_T_MOD) :
    deliver s (whole U) =
      { s with
        latest_frame := some U
        latest_frame_size := U.length
        frame_seq := (s.frame_seq + 1) % UINT64_MOD
        sps_pps := some U
        sps_pps_size := U.length } := by
  have hne : U ≠ [] := by
    intro h
    rw [h] at hover
    simp at hover
  rw [deliver_header_unit s U hne ht]
  apply store_iframe_over_bound
  simp only [Nat.mod_eq_of_lt hfits]
  omega

/-- C3, as amended: on a session with cached header `P`, an I-frame unit `U`
(first NAL type 5, or more than 50000 bytes) whose first NAL type is neither
7 nor 8 and with `len P + len U > MAX_FRAME_SIZE` (the sum itself below
`2 ^ 64`) is delivered, whatever the allocator does.  The have-keyframe flag,
the stored keyframe bytes and the stored keyframe length are what they were
before the delivery, and so is the cached header. -/
theorem C3_bound_law (sess : PythonSession) (P U : List Nat) (frames_lost : Int)
    (frame_recovered : Bool) (m : MallocOutcome)
    (hP : sess.sps_pps = some P) (hPsize : sess.sps_pps_size = P.length)
    (hkey : get_first_nal_type U U.length = 5 ∨ 50000 < U.length)
    (h7 : get_first_nal_type U U.length ≠ 7) (h8 : get_first_nal_type U U.length ≠ 8)
    (hover : MAX_FRAME_SIZE < P.length + U.length)
    (hfits : P.length + U.length < SIZE_T_MOD) :
    (video_frame_cb U U.length frames_lost frame_recovered m sess).2.have_iframe
      = sess.have_iframe ∧
    (video_frame_cb U U.length frames_lost frame_recovered m sess).2.iframe = sess.iframe ∧
    (video_frame_cb U U.length frames_lost frame_recovered m sess).2.iframe_size
      = sess.iframe_size ∧
    (video_frame_cb U U.length frames_lost frame_recovered m sess).2.sps_pps = some P ∧
    (video_frame_cb U U.length frames_lost frame_recovered m sess).2.sps_pps_size
      = P.length := by
  by_cases hn : U.length = 0
  · simp [video_frame_cb, hn, hP, hPsize]
  · have hl := store_latest_frame U U.length m sess
    rw [video_frame_cb_blocks U U.length frames_lost frame_recovered m sess hn,
      store_header_other U U.length _ m _ h7 h8,
      store_iframe_over_bound U U.length _ m _
        (by rw [hl.2.1, hPsize, Nat.mod_eq_of_lt hfits]; omega)]
    refine ⟨hl.2.2.2.2.1, hl.2.2.1, hl.2.2.2.1, ?_, ?_⟩
    · rw [hl.1, hP]
    · rw [hl.2.1, hPsize]

/-- C3, witness: the cached header is `sps_unit 4194299`, of exactly
`MAX_FRAME_SIZE` bytes, and the IDR unit `00 00 00 01 65 88` arrives; no
keyframe is stored. -/
theorem C3_bound_law_witness :
    (deliver calloc_session (whole (sps_unit 4194299))).sps_pps = some (sps_unit 4194299) ∧
    (video_frame_cb [0, 0, 0, 1, 0x65, 0x88] 6 0 false malloc_ok
      (deliver calloc_session (whole (sps_unit 4194299)))).2.have_iframe = false := by
  have hlen : (sps_unit 4194299).length = 4194304 := sps_unit_length 4194299
  have hmax : MAX_FRAME_SIZE = 4194304 := by decide
  have hmod : SIZE_T_MOD = 18446744073709551616 := by decide
  have h0 : deliver calloc_session (whole (sps_unit 4194299)) =
      { calloc_session with
        latest_frame := some (sps_unit 4194299)
        latest_frame_size := (sps_unit 4194299).length
        frame_seq := (calloc_session.frame_seq + 1) % UINT64_MOD
        sps_pps := some (sps_unit 4194299)
        sps_pps_size := (sps_unit 4194299).length } :=
    deliver_oversize_header_unit calloc_session (sps_unit 4194299)
      (Or.inl (sps_unit_type 4194299)) (by omega) (by omega)
  have hP : (deliver calloc_session (whole (sps_unit 4194299))).sps_pps
      = some (sps_unit 4194299) := by rw [h0]
  have hPsize : (deliver calloc_session (whole (sps_unit 4194299))).sps_pps_size
      = (sps_unit 4194299).length := by rw [h0]
  have hflag : (deliver calloc_session (whole (sps_unit 4194299))).have_iframe = false := by
    rw [h0]
    rfl
  have h := (C3_bound_law (deliver calloc_session (whole (sps_unit 4194299)))
    (sps_unit 4194299) [0, 0, 0, 1, 0x65, 0x88] 0 false malloc_ok hP hPsize
    (Or.inl (by decide)) (by decide) (by decide)
    (by rw [hlen, hmax]; decide) (by rw [hlen, hmod]; decide)).1
  exact ⟨hP, h.trans hflag⟩

/-- C3, counterexample: the cached header `P` is `sps_unit 4194299`
(`MAX_FRAME_SIZE` bytes) and the delivered unit `U` is `sps_unit 49996`
(50001 bytes, NAL type 7), so `U` counts as an I-frame by its size and
`len P + len U > MAX_FRAME_SIZE`.  Before the delivery no keyframe is held;
after it the flag is up and the keyframe is `U ++ U`. -/
theorem C3_bound_law_counterexample :
    (deliver calloc_session (whole (sps_unit 4194299))).sps_pps = some (sps_unit 4194299) ∧
    (deliver calloc_session (whole (sps_unit 4194299))).sps_pps_size
      = (sps_unit 4194299).length ∧
    50000 < (sps_unit 49996).length ∧
    MAX_FRAME_SIZE < (sps_unit 4194299).length + (sps_unit 49996).length ∧
    (deliver calloc_session (whole (sps_unit 4194299))).have_iframe = false ∧
    (deliver calloc_session (whole (sps_unit 4194299))).iframe = none ∧
    (deliver (deliver calloc_session (whole (sps_unit 4194299)))
      (whole (sps_unit 49996))).have_iframe = true ∧
    (deliver (deliver calloc_session (whole (sps_unit 4194299)))
      (whole (sps_unit 49996))).iframe = some (sps_unit 49996 ++ sps_unit 49996) := by
  have hlenP : (sps_unit 4194299).length = 4194304 := sps_unit_length 4194299
  have hlenU : (sps_unit 49996).length = 50001 := sps_unit_length 49996
  have hmax : MAX_FRAME_SIZE = 4194304 := by decide
  have hmod : SIZE_T_MOD = 18446744073709551616 := by decide
  have h0 : deliver calloc_session (whole (sps_unit 4194299)) =
      { calloc_session with
        latest_frame := some (sps_unit 4194299)
        latest_frame_size := (sps_unit 4194299).length
        frame_seq := (calloc_session.frame_seq + 1) % UINT64_MOD
        sps_pps := some (sps_unit 4194299)
        sps_pps_size := (sps_unit 4194299).length } :=
    deliver_oversize_header_unit calloc_session (sps_unit 4194299)
      (Or.inl (sps_unit_type 4194299)) (by omega) (by omega)
  obtain ⟨h1, h2, _, _⟩ := deliver_large_header_unit
    (deliver calloc_session (whole (sps_unit 4194299))) (sps_unit 49996)
    (Or.inl (sps_unit_type 49996)) (by omega) (by omega)
  refine ⟨by rw [h0], by rw [h0], by omega, by omega, ?_, ?_, h1, h2⟩
  · rw [h0]
    rfl
  · rw [h0]
    rfl

/-! ## Units the classifier cannot classify -/

/-- A whole unit that is neither a header nor of type 5 and has more than
50000 bytes, delivered with every allocation succeeding on a session whose
cached header `P` is non-empty and fits with it: the keyframe is `P`
followed by the unit. -/
theorem deliver_large_other_unit (s : PythonSession) (P U : List Nat)
    (hP : s.sps_pps = some P) (hPsize : s.sps_pps_size = P.length) (hPne : P ≠ [])
    (h7 : get_first_nal_type U U.length ≠ 7) (h8 : get_first_nal_type U U.length ≠ 8)
    (hlarge : 50000 < U.length) (hfit : P.length + U.length ≤ MAX_FRAME_SIZE) :
    (deliver s (whole U)).have_iframe = true ∧
    (deliver s (whole U)).iframe = some (P ++ U) ∧
    (deliver s (whole U)).iframe_size = P.length + U.length ∧
    (deliver s (whole U)).sps_pps = some P := by
  have hn : U.length ≠ 0 := by omega
  have hPpos : 0 < P.length := List.length_pos.mpr hPne
  have hmod : (P.length + U.length) % SIZE_T_MOD = P.length + U.length := by
    apply Nat.mod_eq_of_lt
    unfold MAX_FRAME_SIZE at hfit
    unfold SIZE_T_MOD
    omega
  have hl := store_latest_frame U U.length malloc_ok s
  have hs1 : (store_latest U U.length malloc_ok s).sps_pps = some P := by rw [hl.1, hP]
  have hs2 : (store_latest U U.length malloc_ok s).sps_pps_size = P.length := by
    rw [hl.2.1, hPsize]
  have hguard : synthesis_guard U.length (get_first_nal_type U U.length) malloc_ok
      (store_latest U U.length malloc_ok s) = true := by
    simp only [synthesis_guard, hs1, hs2, hmod, Option.isSome_some, Bool.and_true,
      Bool.and_eq_true, Bool.or_eq_true, decide_eq_true_eq, beq_iff_eq]
    exact ⟨⟨⟨Or.inr hlarge, hPpos⟩, hfit⟩, rfl⟩
  have hstep : deliver s (whole U) =
      { store_latest U U.length malloc_ok s with
        iframe := some (P ++ U)
        iframe_size := P.length + U.length
        have_iframe := true } := by
    unfold deliver whole
    simp only []
    rw [video_frame_cb_blocks U U.length 0 false malloc_ok s hn,
      store_header_other U U.length _ malloc_ok _ h7 h8,
      store_iframe_synthesis U U.length _ malloc_ok _ P hs1 hguard]
    simp [hs2, hmod]
  rw [hstep]
  exact ⟨rfl, rfl, rfl, hs1⟩

/-- C9, as amended: a non-empty unit of at most 50000 bytes that the
classifier cannot classify (`get_first_nal_type` answers `-1`) leaves the
cached header, the keyframe bytes, the keyframe length and the have-keyframe
flag as they were, whatever the allocator does; when the allocation of the
latest-frame block succeeds the unit is stored as the latest unit. -/
theorem C9_unclassified_unit (sess : PythonSession) (U : List Nat) (frames_lost : Int)
    (frame_recovered : Bool) (m : MallocOutcome)
    (hUne : U ≠ [])
    (hunknown : get_first_nal_type U U.length = -1)
    (hsmall : U.length ≤ 50000) :
    (video_frame_cb U U.length frames_lost frame_recovered m sess).2.sps_pps = sess.sps_pps ∧
    (video_frame_cb U U.length frames_lost frame_recovered m sess).2.sps_pps_size
      = sess.sps_pps_size ∧
    (video_frame_cb U U.length frames_lost frame_recovered m sess).2.iframe = sess.iframe ∧
    (video_frame_cb U U.length frames_lost frame_recovered m sess).2.iframe_size
      = sess.iframe_size ∧
    (video_frame_cb U U.length frames_lost frame_recovered m sess).2.have_iframe
      = sess.have_iframe ∧
    (m.latest_ok = true →
      (video_frame_cb U U.length frames_lost frame_recovered m sess).2.latest_frame = some U ∧
      (video_frame_cb U U.length frames_lost frame_recovered m sess).2.latest_frame_size
        = U.length) := by
  have hn : U.length ≠ 0 := fun h => hUne (List.length_eq_zero.mp h)
  have h5 : get_first_nal_type U U.length ≠ 5 := by rw [hunknown]; decide
  have h7 : get_first_nal_type U U.length ≠ 7 := by rw [hunknown]; decide
  have h8 : get_first_nal_type U U.length ≠ 8 := by rw [hunknown]; decide
  have hl := store_latest_frame U U.length m sess
  rw [video_frame_cb_blocks U U.length frames_lost frame_recovered m sess hn,
    store_header_other U U.length _ m _ h7 h8,
    store_iframe_not_key U U.length _ m _ h5 hsmall]
  refine ⟨hl.1, hl.2.1, hl.2.2.1, hl.2.2.2.1, hl.2.2.2.2.1, fun hm => ?_⟩
  simp [store_latest, hm]

/-- C9, witness: the three bytes `ff 00 00` arrive on a session that holds
the header `00 00 00 01 67 42`; they become the latest unit and the header
stays. -/
theorem C9_unclassified_unit_witness :
    (video_frame_cb [0xff, 0, 0] 3 0 false malloc_ok
      (deliver calloc_session (whole [0, 0, 0, 1, 0x67, 0x42]))).2.sps_pps
      = some [0, 0, 0, 1, 0x67, 0x42] ∧
    (video_frame_cb [0xff, 0, 0] 3 0 false malloc_ok
      (deliver calloc_session (whole [0, 0, 0, 1, 0x67, 0x42]))).2.latest_frame
      = some [0xff, 0, 0] := by
  have h := C9_unclassified_unit (deliver calloc_session (whole [0, 0, 0, 1, 0x67, 0x42]))
    [0xff, 0, 0] 0 false malloc_ok (by decide) (by decide) (by decide)
  exact ⟨h.1, (h.2.2.2.2.2 rfl).1⟩

/-- C9, counterexample: the unit `raw_unit 50000` (50001 bytes, no start
code, classified `-1`) arrives on a session that holds the header
`00 00 00 01 67 42` and no keyframe.  After the delivery the flag is up and
the keyframe is the header followed by the unit. -/
theorem C9_unclassified_unit_counterexample :
    raw_unit 50000 ≠ [] ∧
    get_first_nal_type (raw_unit 50000) (raw_unit 50000).length = -1 ∧
    (deliver calloc_session (whole [0, 0, 0, 1, 0x67, 0x42])).have_iframe = false ∧
    (deliver calloc_session (whole [0, 0, 0, 1, 0x67, 0x42])).iframe = none ∧
    (deliver (deliver calloc_session (whole [0, 0, 0, 1, 0x67, 0x42]))
      (whole (raw_unit 50000))).have_iframe = true ∧
    (deliver (deliver calloc_session (whole [0, 0, 0, 1, 0x67, 0x42]))
      (whole (raw_unit 50000))).iframe
      = some ([0, 0, 0, 1, 0x67, 0x42] ++ raw_unit 50000) := by
  have hlen : (raw_unit 50000).length = 50001 := raw_unit_length 50000
  have ht : get_first_nal_type (raw_unit 50000) (raw_unit 50000).length = -1 :=
    raw_unit_type 50000
  have hmax : MAX_FRAME_SIZE = 4194304 := by decide
  obtain ⟨h1, h2, _, _⟩ := deliver_large_other_unit
    (deliver calloc_session (whole [0, 0, 0, 1, 0x67, 0x42]))
    [0, 0, 0, 1, 0x67, 0x42] (raw_unit 50000) (by decide) (by decide) (by decide)
    (by rw [ht]; decide) (by rw [ht]; decide) (by omega)
    (by rw [hlen, hmax]; decide)
  refine ⟨?_, ht, by decide, by decide, h1, h2⟩
  intro h
  rw [h] at hlen
  simp at hlen

/-! ## The latest unit and its sequence number -/

/-- A delivery with `buf_size == 0` hands the session back. -/
theorem deliver_empty (s : PythonSession) (d : Delivery) (h : d.buf_size = 0) :
    deliver s d = s := by
  simp [deliver, video_frame_cb, h]

/-- A non-empty delivery whose latest-frame allocation succeeds stores the
unit and moves the sequence number on by one, modulo `2 ^ 64`. -/
theorem deliver_latest (s : PythonSession) (d : Delivery) (h : d.buf_size ≠ 0)
    (hm : d.malloc.latest_ok = true) :
    (deliver s d).latest_frame = some (d.buf.take d.buf_size) ∧
    (deliver s d).latest_frame_size = d.buf_size ∧
    (deliver s d).frame_seq = (s.frame_seq + 1) % UINT64_MOD := by
  have h1 := store_iframe_frame d.buf d.buf_size (get_first_nal_type d.buf d.buf_size) d.malloc
    (store_header d.buf d.buf_size (get_first_nal_type d.buf d.buf_size) d.malloc
      (store_latest d.buf d.buf_size d.malloc s))
  have h2 := store_header_frame d.buf d.buf_size (get_first_nal_type d.buf d.buf_size) d.malloc
    (store_latest d.buf d.buf_size d.malloc s)
  unfold deliver
  rw [video_frame_cb_blocks d.buf d.buf_size d.frames_lost d.frame_recovered d.malloc s h]
  refine ⟨?_, ?_, ?_⟩
  · rw [h1.1, h2.1]
    simp [store_latest, hm]
  · rw [h1.2.1, h2.2.1]
    simp [store_latest, hm]
  · rw [h1.2.2.1, h2.2.2.1]
    simp [store_latest, hm]

/-- After whole units have been delivered to a fresh session, each with its
latest-frame allocation succeeding: the sequence number is the number of
non-empty units modulo `2 ^ 64`, and the latest frame is the last non-empty
unit. -/
theorem deliver_all_latest (ds : List Delivery)
    (hwf : ∀ x ∈ ds, x.buf_size = x.buf.length ∧ x.malloc.latest_ok = true) :
    (deliver_all calloc_session ds).frame_seq = (accepted ds).length % UINT64_MOD ∧
    (∀ d, (accepted ds).getLast? = some d →
      (deliver_all calloc_session ds).latest_frame = some d.buf ∧
      (deliver_all calloc_session ds).latest_frame_size = d.buf.length) := by
  induction ds using List.reverseRecOn with
  | nil =>
    refine ⟨rfl, ?_⟩
    intro d hd
    simp [accepted] at hd
  | append_singleton l a ih =>
    have hl : ∀ x ∈ l, x.buf_size = x.buf.length ∧ x.malloc.latest_ok = true :=
      fun x hx => hwf x (List.mem_append_left _ hx)
    have ha : a.buf_size = a.buf.length ∧ a.malloc.latest_ok = true :=
      hwf a (List.mem_append_right _ (List.mem_singleton_self a))
    obtain ⟨ih1, ih2⟩ := ih hl
    have hrun : deliver_all calloc_session (l ++ [a]) =
        deliver (deliver_all calloc_session l) a := by
      simp [deliver_all, List.foldl_append]
    rw [hrun]
    by_cases h0 : a.buf_size = 0
    · have hacc : accepted (l ++ [a]) = accepted l := by
        simp [accepted, List.filter_append, h0]
      rw [deliver_empty _ a h0, hacc]
      exact ⟨ih1, ih2⟩
    · have hacc : accepted (l ++ [a]) = accepted l ++ [a] := by
        simp [accepted, List.filter_append, h0]
      obtain ⟨h1, h2, h3⟩ := deliver_latest (deliver_all calloc_session l) a h0 ha.2
      rw [hacc]
      refine ⟨?_, ?_⟩
      · rw [h3, ih1, List.length_append, List.length_singleton]
        exact Nat.mod_add_mod _ _ _
      · intro d hd
        rw [List.getLast?_concat] at hd
        cases hd
        rw [h1, h2, ha.1, List.take_length]
        exact ⟨rfl, rfl⟩

/-- Reading the latest frame when a block is held whose size fits the
destination. -/
theorem get_frame_ex_fits (s : PythonSession) (frame dst : List Nat) (cap : Nat)
    (seq_out : Option Nat) (hframe : s.latest_frame = some frame)
    (hsize : s.latest_frame_size = frame.length) (hcap : frame.length ≤ cap) :
    chiaki_python_session_get_frame_ex s (some dst) cap seq_out =
      { ret := frame.length
        buffer := some (frame ++ dst.drop frame.length)
        seq_out := seq_out.map (fun _ => s.frame_seq)
        sess := s } := by
  simp [chiaki_python_session_get_frame_ex, hframe, hsize, hcap]

/-- C2: whole units are delivered to a freshly created session, each with
its latest-frame allocation succeeding, and at least one of them is
non-empty; `d` is the last non-empty one, and fewer than `2 ^ 64` non-empty
units have been delivered.  Then `chiaki_python_session_get_frame_ex` with a
capacity of at least the length of `d` returns that length, writes exactly
the bytes of `d` at the front of the destination and reports the number of
non-empty units delivered so far. -/
theorem C2_latest_unit_law (ds : List Delivery) (d : Delivery) (dst : List Nat) (cap : Nat)
    (seq_out : Option Nat)
    (hwf : ∀ x ∈ ds, x.buf_size = x.buf.length ∧ x.malloc.latest_ok = true)
    (hlast : (accepted ds).getLast? = some d)
    (hcap : d.buf.length ≤ cap)
    (hbelow : (accepted ds).length < UINT64_MOD) :
    chiaki_python_session_get_frame_ex (deliver_all calloc_session ds) (some dst) cap seq_out
      = { ret := d.buf.length
          buffer := some (d.buf ++ dst.drop d.buf.length)
          seq_out := seq_out.map (fun _ => (accepted ds).length)
          sess := deliver_all calloc_session ds } := by
  obtain ⟨h1, h2⟩ := deliver_all_latest ds hwf
  obtain ⟨h3, h4⟩ := h2 d hlast
  have h := get_frame_ex_fits (deliver_all calloc_session ds) d.buf dst cap seq_out h3 h4 hcap
  rw [h1, Nat.mod_eq_of_lt hbelow] at h
  exact h

/-- C2, witness: a header unit, an empty delivery and an IDR unit are
delivered; the read returns the six bytes of the IDR unit and sequence
number 2. -/
theorem C2_latest_unit_law_witness :
    chiaki_python_session_get_frame_ex
        (deliver_all calloc_session
          [whole [0, 0, 0, 1, 0x67, 0x42], whole [], whole [0, 0, 0, 1, 0x65, 0x88]])
        (some [9, 9, 9, 9, 9, 9, 9, 9]) 8 (some 0)
      = { ret := 6
          buffer := some [0, 0, 0, 1, 0x65, 0x88, 9, 9]
          seq_out := some 2
          sess := deliver_all calloc_session
            [whole [0, 0, 0, 1, 0x67, 0x42], whole [], whole [0, 0, 0, 1, 0x65, 0x88]] } :=
  C2_latest_unit_law
    [whole [0, 0, 0, 1, 0x67, 0x42], whole [], whole [0, 0, 0, 1, 0x65, 0x88]]
    (whole [0, 0, 0, 1, 0x65, 0x88]) [9, 9, 9, 9, 9, 9, 9, 9] 8 (some 0)
    (by decide) (by decide) (by decide) (by decide)

/-! ## The size of the keyframe -/

/-- The I-frame block keeps the slot within the bound. -/
theorem store_iframe_bounded (buf : List Nat) (n : Nat) (t : Int) (m : MallocOutcome)
    (s : PythonSession) (h : iframe_bounded s) :
    iframe_bounded (store_iframe buf n t m s) := by
  unfold store_iframe
  simp only []
  split
  · exact h
  · split_ifs with h1 h2 h3
    · refine ⟨h2, ?_⟩
      intro b hb
      simp only [Option.some.injEq] at hb
      rw [← hb]
      exact List.length_take_le _ _
    · refine ⟨h.1, ?_⟩
      intro b hb
      simp at hb
    · exact h
    · exact h

/-- One delivery keeps the I-frame slot within the bound, whatever the unit,
the size passed with it and the allocator. -/
theorem deliver_bounded (s : PythonSession) (d : Delivery) (h : iframe_bounded s) :
    iframe_bounded (deliver s d) := by
  by_cases h0 : d.buf_size = 0
  · rw [deliver_empty s d h0]
    exact h
  · unfold deliver
    rw [video_frame_cb_blocks d.buf d.buf_size d.frames_lost d.frame_recovered d.malloc s h0]
    apply store_iframe_bounded
    have h2 := store_header_frame d.buf d.buf_size (get_first_nal_type d.buf d.buf_size)
      d.malloc (store_latest d.buf d.buf_size d.malloc s)
    have h3 := store_latest_frame d.buf d.buf_size d.malloc s
    unfold iframe_bounded
    rw [h2.2.2.2.2.1, h2.2.2.2.1, h3.2.2.2.1, h3.2.2.1]
    exact h

/-- The reads hand the session back as they got it. -/
theorem reads_keep_session (s : PythonSession) (buffer : Option (List Nat)) (cap : Nat)
    (seq_out : Option Nat) :
    (chiaki_python_session_get_frame_ex s buffer cap seq_out).sess = s ∧
    (chiaki_python_session_get_frame s buffer cap).sess = s ∧
    (chiaki_python_session_get_frame_seq s).2 = s ∧
    (chiaki_python_session_get_iframe s buffer cap).sess = s ∧
    (chiaki_python_session_has_iframe s).2 = s := by
  have h1 : ∀ q, (chiaki_python_session_get_frame_ex s buffer cap q).sess = s := by
    intro q
    unfold chiaki_python_session_get_frame_ex
    split
    · rfl
    · split
      · split_ifs <;> rfl
      · rfl
  refine ⟨h1 seq_out, h1 none, rfl, ?_, rfl⟩
  unfold chiaki_python_session_get_iframe
  split
  · rfl
  · split
    · split_ifs <;> rfl
    · rfl

/-- Every call keeps the I-frame slot within the bound. -/
theorem step_bounded (s : PythonSession) (op : Op) (h : iframe_bounded s) :
    iframe_bounded (step s op) := by
  cases op with
  | video_frame d => exact deliver_bounded s d h
  | get_frame_ex buffer n q =>
    show iframe_bounded (chiaki_python_session_get_frame_ex s buffer n q).sess
    rw [(reads_keep_session s buffer n q).1]
    exact h
  | get_frame buffer n =>
    show iframe_bounded (chiaki_python_session_get_frame s buffer n).sess
    rw [(reads_keep_session s buffer n none).2.1]
    exact h
  | get_frame_seq => exact h
  | get_iframe buffer n =>
    show iframe_bounded (chiaki_python_session_get_iframe s buffer n).sess
    rw [(reads_keep_session s buffer n none).2.2.2.1]
    exact h
  | has_iframe => exact h
  | clear_iframe => exact h

/-- Every sequence of calls keeps the I-frame slot within the bound. -/
theorem run_bounded (ops : List Op) (s : PythonSession) (h : iframe_bounded s) :
    iframe_bounded (run s ops) := by
  induction ops generalizing s with
  | nil => exact h
  | cons op ops ih => exact ih (step s op) (step_bounded s op h)

/-- What `chiaki_python_session_get_iframe` returns is 0 or the recorded
I-frame size. -/
theorem get_iframe_ret_le (s : PythonSession) (buffer : Option (List Nat)) (cap : Nat) :
    (chiaki_python_session_get_iframe s buffer cap).ret ≤ s.iframe_size := by
  unfold chiaki_python_session_get_iframe
  split
  · exact Nat.zero_le _
  · split
    · split_ifs
      · exact Nat.le_refl _
      · exact Nat.zero_le _
    · exact Nat.zero_le _

/-- C10: in every state reached from a freshly created session by deliveries
(units of any content and size, any allocator outcome), reads and
`chiaki_python_session_clear_iframe` calls, the recorded keyframe size is at
most `MAX_FRAME_SIZE`, the keyframe block held has at most that many bytes,
and `chiaki_python_session_get_iframe` returns at most
`MAX_FRAME_SIZE = 4194304` for every destination and capacity. -/
theorem C10_keyframe_size_invariant (ops : List Op) :
    MAX_FRAME_SIZE = 4194304 ∧
    (run calloc_session ops).iframe_size ≤ MAX_FRAME_SIZE ∧
    (∀ b, (run calloc_session ops).iframe = some b → b.length ≤ MAX_FRAME_SIZE) ∧
    (∀ buffer cap,
      (chiaki_python_session_get_iframe (run calloc_session ops) buffer cap).ret
        ≤ 4194304) := by
  have h0 : iframe_bounded calloc_session := by
    refine ⟨Nat.zero_le _, ?_⟩
    intro b hb
    cases hb
  have hmax : MAX_FRAME_SIZE = 4194304 := by decide
  obtain ⟨h1, h2⟩ := run_bounded ops calloc_session h0
  refine ⟨hmax, h1, fun b hb => Nat.le_trans (h2 b hb) h1, fun buffer cap => ?_⟩
  rw [← hmax]
  exact Nat.le_trans (get_iframe_ret_le _ buffer cap) h1

/-! ## Reads -/

/-- A sequence of reads hands the session back as it got it. -/
theorem run_reads (ops : List Op) (s : PythonSession)
    (h : ∀ op ∈ ops, read_op op = true) : run s ops = s := by
  induction ops generalizing s with
  | nil => rfl
  | cons op ops ih =>
    have hop : read_op op = true := h op (List.mem_cons_self _ _)
    have hrest : ∀ o ∈ ops, read_op o = true := fun o ho => h o (List.mem_cons_of_mem _ ho)
    have hstep : step s op = s := by
      cases op with
      | video_frame d => simp [read_op] at hop
      | get_frame_ex buffer n q => exact (reads_keep_session s buffer n q).1
      | get_frame buffer n => exact (reads_keep_session s buffer n none).2.1
      | get_frame_seq => rfl
      | get_iframe buffer n => exact (reads_keep_session s buffer n none).2.2.2.1
      | has_iframe => rfl
      | clear_iframe => simp [read_op] at hop
    show run (step s op) ops = s
    rw [hstep]
    exact ih s hrest

/-- C12: `chiaki_python_session_get_frame_ex`,
`chiaki_python_session_get_iframe`, `chiaki_python_session_has_iframe` and
`chiaki_python_session_get_frame_seq` hand the session back unchanged, so
after any number of reads, with no delivery or clear in between, a read with
the same destination and capacity returns the same length, bytes and
sequence number as before. -/
theorem C12_read_idempotence (sess : PythonSession) (ops : List Op)
    (buffer : Option (List Nat)) (cap : Nat) (seq_out : Option Nat)
    (hreads : ∀ op ∈ ops, read_op op = true) :
    ((chiaki_python_session_get_frame_ex sess buffer cap seq_out).sess = sess ∧
      (chiaki_python_session_get_iframe sess buffer cap).sess = sess ∧
      (chiaki_python_session_has_iframe sess).2 = sess ∧
      (chiaki_python_session_get_frame_seq sess).2 = sess) ∧
    run sess ops = sess ∧
    chiaki_python_session_get_frame_ex (run sess ops) buffer cap seq_out
      = chiaki_python_session_get_frame_ex sess buffer cap seq_out ∧
    chiaki_python_session_get_iframe (run sess ops) buffer cap
      = chiaki_python_session_get_iframe sess buffer cap ∧
    chiaki_python_session_has_iframe (run sess ops)
      = chiaki_python_session_has_iframe sess ∧
    chiaki_python_session_get_frame_seq (run sess ops)
      = chiaki_python_session_get_frame_seq sess := by
  have hr := reads_keep_session sess buffer cap seq_out
  have hrun := run_reads ops sess hreads
  refine ⟨⟨hr.1, hr.2.2.2.1, hr.2.2.2.2, hr.2.2.1⟩, hrun, ?_, ?_, ?_, ?_⟩ <;> rw [hrun]

/-- C12, witness: on a session holding a latest unit and a keyframe, three
reads in a row leave the session as it was, and a fourth read of the latest
frame returns the same six bytes and sequence number 2. -/
theorem C12_read_idempotence_witness :
    run (deliver_all calloc_session
          [whole [0, 0, 0, 1, 0x67, 0x42], whole [0, 0, 0, 1, 0x65, 0x88]])
        [Op.get_frame_ex (some [9, 9, 9, 9, 9, 9]) 6 (some 0),
         Op.get_iframe (some [9, 9, 9, 9, 9, 9, 9, 9, 9, 9, 9, 9]) 12,
         Op.has_iframe]
      = deliver_all calloc_session
          [whole [0, 0, 0, 1, 0x67, 0x42], whole [0, 0, 0, 1, 0x65, 0x88]] ∧
    (chiaki_python_session_get_frame_ex
      (deliver_all calloc_session
        [whole [0, 0, 0, 1, 0x67, 0x42], whole [0, 0, 0, 1, 0x65, 0x88]])
      (some [9, 9, 9, 9, 9, 9]) 6 (some 0)).seq_out = some 2 := by
  have h := C12_read_idempotence
    (deliver_all calloc_session
      [whole [0, 0, 0, 1, 0x67, 0x42], whole [0, 0, 0, 1, 0x65, 0x88]])
    [Op.get_frame_ex (some [9, 9, 9, 9, 9, 9]) 6 (some 0),
     Op.get_iframe (some [9, 9, 9, 9, 9, 9, 9, 9, 9, 9, 9, 9]) 12,
     Op.has_iframe]
    (some [9, 9, 9, 9, 9, 9]) 6 (some 0) (by decide)
  exact ⟨h.2.1, by decide⟩

/-! ## The sequence number -/

/-- A non-empty delivery whose latest-frame allocation fails leaves the
sequence number alone. -/
theorem deliver_latest_failed (s : PythonSession) (d : Delivery) (h : d.buf_size ≠ 0)
    (hm : d.malloc.latest_ok = false) :
    (deliver s d).frame_seq = s.frame_seq := by
  have h1 := store_iframe_frame d.buf d.buf_size (get_first_nal_type d.buf d.buf_size) d.malloc
    (store_header d.buf d.buf_size (get_first_nal_type d.buf d.buf_size) d.malloc
      (store_latest d.buf d.buf_size d.malloc s))
  have h2 := store_header_frame d.buf d.buf_size (get_first_nal_type d.buf d.buf_size) d.malloc
    (store_latest d.buf d.buf_size d.malloc s)
  unfold deliver
  rw [video_frame_cb_blocks d.buf d.buf_size d.frames_lost d.frame_recovered d.malloc s h,
    h1.2.2.1, h2.2.2.1]
  simp [store_latest, hm]

/-- What one call does to the sequence number. -/
theorem step_frame_seq (s : PythonSession) (op : Op) :
    (step s op).frame_seq =
      if stores_unit op = true then (s.frame_seq + 1) % UINT64_MOD else s.frame_seq := by
  cases op with
  | video_frame d =>
    show (deliver s d).frame_seq = _
    by_cases h0 : d.buf_size = 0
    · rw [deliver_empty s d h0]
      simp [stores_unit, h0]
    · cases hm : d.malloc.latest_ok with
      | true =>
        rw [(deliver_latest s d h0 hm).2.2]
        simp [stores_unit, h0, hm]
      | false =>
        rw [deliver_latest_failed s d h0 hm]
        simp [stores_unit, hm]
  | get_frame_ex buffer n q =>
    show (chiaki_python_session_get_frame_ex s buffer n q).sess.frame_seq = _
    rw [(reads_keep_session s buffer n q).1]
    rfl
  | get_frame buffer n =>
    show (chiaki_python_session_get_frame s buffer n).sess.frame_seq = _
    rw [(reads_keep_session s buffer n none).2.1]
    rfl
  | get_frame_seq => rfl
  | get_iframe buffer n =>
    show (chiaki_python_session_get_iframe s buffer n).sess.frame_seq = _
    rw [(reads_keep_session s buffer n none).2.2.2.1]
    rfl
  | has_iframe => rfl
  | clear_iframe => rfl

/-- What a sequence of calls does to the sequence number. -/
theorem run_frame_seq (ops : List Op) (s : PythonSession) (hs : s.frame_seq < UINT64_MOD) :
    (run s ops).frame_seq = (s.frame_seq + (ops.filter stores_unit).length) % UINT64_MOD := by
  induction ops generalizing s with
  | nil =>
    show s.frame_seq = _
    simp only [List.filter_nil, List.length_nil, Nat.add_zero]
    exact (Nat.mod_eq_of_lt hs).symm
  | cons op ops ih =>
    have hpos : 0 < UINT64_MOD := by unfold UINT64_MOD; norm_num
    have hstep := step_frame_seq s op
    have hlt : (step s op).frame_seq < UINT64_MOD := by
      rw [hstep]
      split_ifs
      · exact Nat.mod_lt _ hpos
      · exact hs
    show (run (step s op) ops).frame_seq = _
    rw [ih (step s op) hlt, hstep]
    cases hst : stores_unit op with
    | true =>
      simp only [if_true, List.filter_cons, hst, List.length_cons]
      rw [Nat.mod_add_mod]
      congr 1
      omega
    | false =>
      simp [List.filter_cons, hst]

/-- The calls of `pre`, which come first in `ops`, store no more units than
those of `ops`. -/
theorem stores_front_le (pre post : List Op) (op : Op) :
    (pre.filter stores_unit).length + (if stores_unit op = true then 1 else 0)
      ≤ ((pre ++ op :: post).filter stores_unit).length := by
  rw [List.filter_append, List.length_append, List.filter_cons]
  cases h : stores_unit op <;> simp

/-- C13: along a sequence of calls during which `frame_seq`, a 64-bit
unsigned counter, stays below `2 ^ 64`, every delivery that stores a unit
into the latest slot increments it by exactly one, whatever else the
delivery does, and no other call (a zero-length delivery, a delivery whose
latest-frame allocation fails, a read,
`chiaki_python_session_clear_iframe`) changes it; so it never decreases, and
at the end it has grown by the number of units stored. -/
theorem C13_sequence_number (sess : PythonSession) (ops : List Op)
    (hbelow : sess.frame_seq + (ops.filter stores_unit).length < UINT64_MOD) :
    (∀ pre op post, ops = pre ++ op :: post →
      (stores_unit op = true →
        (step (run sess pre) op).frame_seq = (run sess pre).frame_seq + 1) ∧
      (stores_unit op = false →
        (step (run sess pre) op).frame_seq = (run sess pre).frame_seq) ∧
      (run sess pre).frame_seq ≤ (step (run sess pre) op).frame_seq) ∧
    (run sess ops).frame_seq = sess.frame_seq + (ops.filter stores_unit).length ∧
    sess.frame_seq ≤ (run sess ops).frame_seq := by
  have hseq : sess.frame_seq < UINT64_MOD := by omega
  have hrun : (run sess ops).frame_seq
      = sess.frame_seq + (ops.filter stores_unit).length := by
    rw [run_frame_seq ops sess hseq, Nat.mod_eq_of_lt hbelow]
  refine ⟨?_, hrun, by rw [hrun]; exact Nat.le_add_right _ _⟩
  intro pre op post hsplit
  have hle := stores_front_le pre post op
  rw [← hsplit] at hle
  have hpre : (run sess pre).frame_seq = sess.frame_seq + (pre.filter stores_unit).length := by
    rw [run_frame_seq pre sess hseq]
    apply Nat.mod_eq_of_lt
    have : (pre.filter stores_unit).length ≤ (ops.filter stores_unit).length := by
      have := Nat.le_add_right (pre.filter stores_unit).length
        (if stores_unit op = true then 1 else 0)
      omega
    omega
  have hstep := step_frame_seq (run sess pre) op
  cases hst : stores_unit op with
  | true =>
    rw [hst] at hle
    simp only [if_true] at hle
    rw [hst] at hstep
    simp only [if_true] at hstep
    have hlt : (run sess pre).frame_seq + 1 < UINT64_MOD := by omega
    rw [Nat.mod_eq_of_lt hlt] at hstep
    refine ⟨fun _ => hstep, fun h => absurd h (by decide), ?_⟩
    rw [hstep]
    exact Nat.le_succ _
  | false =>
    rw [hst] at hstep
    simp only [Bool.false_eq_true, if_false] at hstep
    refine ⟨fun h => absurd h (by decide), fun _ => hstep, ?_⟩
    rw [hstep]

/-- C13, witness: from a fresh session, a header unit, a read, an empty
delivery, a clear and an IDR unit leave the sequence number at 2. -/
theorem C13_sequence_number_witness :
    (run calloc_session
      [Op.video_frame (whole [0, 0, 0, 1, 0x67, 0x42]),
       Op.get_frame_seq,
       Op.video_frame (whole []),
       Op.clear_iframe,
       Op.video_frame (whole [0, 0, 0, 1, 0x65, 0x88])]).frame_seq = 2 :=
  (C13_sequence_number calloc_session
    [Op.video_frame (whole [0, 0, 0, 1, 0x67, 0x42]),
     Op.get_frame_seq,
     Op.video_frame (whole []),
     Op.clear_iframe,
     Op.video_frame (whole [0, 0, 0, 1, 0x65, 0x88])]
    (by decide)).2.1

/-! ## No keyframe before a header -/

/-- The I-frame block does nothing while no header is cached. -/
theorem store_iframe_no_header (buf : List Nat) (n : Nat) (t : Int) (m : MallocOutcome)
    (s : PythonSession) (h : s.sps_pps = none) :
    store_iframe buf n t m s = s := by
  unfold store_iframe
  simp only [h]

/-- A unit that is not of type 7 or 8, delivered while no header is cached:
still no header is cached, and the flag is as it was. -/
theorem deliver_no_header (s : PythonSession) (d : Delivery) (h : s.sps_pps = none)
    (h7 : get_first_nal_type d.buf d.buf_size ≠ 7)
    (h8 : get_first_nal_type d.buf d.buf_size ≠ 8) :
    (deliver s d).sps_pps = none ∧ (deliver s d).have_iframe = s.have_iframe := by
  by_cases h0 : d.buf_size = 0
  · rw [deliver_empty s d h0]
    exact ⟨h, rfl⟩
  · have hl := store_latest_frame d.buf d.buf_size d.malloc s
    have hs : (store_latest d.buf d.buf_size d.malloc s).sps_pps = none := by rw [hl.1, h]
    unfold deliver
    rw [video_frame_cb_blocks d.buf d.buf_size d.frames_lost d.frame_recovered d.malloc s h0,
      store_header_other d.buf d.buf_size _ d.malloc _ h7 h8,
      store_iframe_no_header d.buf d.buf_size _ d.malloc _ hs]
    exact ⟨hs, hl.2.2.2.2.1⟩

/-- Units none of which is of type 7 or 8, delivered while no header is
cached, leave the flag as it was. -/
theorem deliver_all_no_header (ds : List Delivery) (s : PythonSession) (h : s.sps_pps = none)
    (hds : ∀ d ∈ ds, get_first_nal_type d.buf d.buf_size ≠ 7 ∧
      get_first_nal_type d.buf d.buf_size ≠ 8) :
    (deliver_all s ds).sps_pps = none ∧ (deliver_all s ds).have_iframe = s.have_iframe := by
  induction ds generalizing s with
  | nil => exact ⟨h, rfl⟩
  | cons d ds ih =>
    obtain ⟨h7, h8⟩ := hds d (List.mem_cons_self _ _)
    obtain ⟨h1, h2⟩ := deliver_no_header s d h h7 h8
    obtain ⟨h3, h4⟩ := ih (deliver s d) h1 (fun x hx => hds x (List.mem_cons_of_mem _ hx))
    show (deliver_all (deliver s d) ds).sps_pps = none ∧
      (deliver_all (deliver s d) ds).have_iframe = s.have_iframe
    exact ⟨h3, h4.trans h2⟩

/-- C14: units are delivered to a freshly created session and none of them
has first NAL type 7 or 8 (IDR units and units of more than 50000 bytes are
allowed, and so is any allocator outcome).  After every one of the
deliveries no header is cached, the have-keyframe flag is false and
`chiaki_python_session_get_iframe` returns 0 for every destination and
capacity. -/
theorem C14_no_keyframe_before_header (ds : List Delivery) (k : Nat)
    (hds : ∀ d ∈ ds, get_first_nal_type d.buf d.buf_size ≠ 7 ∧
      get_first_nal_type d.buf d.buf_size ≠ 8) :
    (deliver_all calloc_session (ds.take k)).sps_pps = none ∧
    (deliver_all calloc_session (ds.take k)).have_iframe = false ∧
    (chiaki_python_session_has_iframe (deliver_all calloc_session (ds.take k))).1 = false ∧
    (∀ buffer cap,
      (chiaki_python_session_get_iframe
        (deliver_all calloc_session (ds.take k)) buffer cap).ret = 0) := by
  obtain ⟨h1, h2⟩ := deliver_all_no_header (ds.take k) calloc_session rfl
    (fun d hd => hds d (List.mem_of_mem_take hd))
  have hflag : (deliver_all calloc_session (ds.take k)).have_iframe = false := h2
  refine ⟨h1, hflag, hflag, fun buffer cap => ?_⟩
  rw [get_iframe_flag_down _ hflag]

/-- C14, witness: an IDR unit, a delta unit and a second IDR unit are
delivered to a fresh session; after all three the flag is still false. -/
theorem C14_no_keyframe_before_header_witness :
    (deliver_all calloc_session
      (List.take 3
        [whole [0, 0, 0, 1, 0x65, 0x88], whole [0, 0, 0, 1, 0x41, 0x9a],
         whole [0, 0, 1, 0x65, 0x77]])).have_iframe = false :=
  (C14_no_keyframe_before_header
    [whole [0, 0, 0, 1, 0x65, 0x88], whole [0, 0, 0, 1, 0x41, 0x9a],
     whole [0, 0, 1, 0x65, 0x77]] 3 (by decide)).2.1

/-! ## What the keyframe holds -/

/-- With no I-frame block held `chiaki_python_session_get_iframe` returns
0, whatever the flag says. -/
theorem get_iframe_no_block (s : PythonSession) (h : s.iframe = none)
    (buffer : Option (List Nat)) (cap : Nat) :
    chiaki_python_session_get_iframe s buffer cap = { ret := 0, buffer := buffer, sess := s } := by
  unfold chiaki_python_session_get_iframe
  cases buffer with
  | none => rfl
  | some dst => simp only [h]

/-- C15, the code at the failing input: an SPS unit `00 00 00 01 67 42`, a
PPS unit `00 00 00 01 68 ce` and an IDR unit `00 00 00 01 65 88` are
delivered one after the other to a fresh session.  The PPS unit has replaced
the SPS unit in the header slot, so `chiaki_python_session_get_iframe`
returns 12 bytes, the PPS unit followed by the IDR unit: the NAL units in
them are of types 8 and 5, and no unit of type 7 is among them. -/
theorem C15_keyframe_content_failing_input :
    chiaki_python_session_get_iframe
        (deliver_all calloc_session
          [whole [0, 0, 0, 1, 0x67, 0x42], whole [0, 0, 0, 1, 0x68, 0xce],
           whole [0, 0, 0, 1, 0x65, 0x88]])
        (some [9, 9, 9, 9, 9, 9, 9, 9, 9, 9, 9, 9]) 12
      = { ret := 12
          buffer := some [0, 0, 0, 1, 0x68, 0xce, 0, 0, 0, 1, 0x65, 0x88]
          sess := deliver_all calloc_session
            [whole [0, 0, 0, 1, 0x67, 0x42], whole [0, 0, 0, 1, 0x68, 0xce],
             whole [0, 0, 0, 1, 0x65, 0x88]] } ∧
    nal_types [0, 0, 0, 1, 0x68, 0xce, 0, 0, 0, 1, 0x65, 0x88] = [8, 5] ∧
    ¬ sps_pps_idr [0, 0, 0, 1, 0x68, 0xce, 0, 0, 0, 1, 0x65, 0x88] := by
  refine ⟨by decide, by decide, ?_⟩
  unfold sps_pps_idr
  decide

/-- C16, the code at the failing input: a header unit and an IDR unit are
delivered to a fresh session, and a keyframe of 12 bytes can be read.  A
second IDR unit follows whose I-frame `malloc` fails.  After it
`chiaki_python_session_has_iframe` still answers true, no I-frame block is
held, and `chiaki_python_session_get_iframe` returns 0 for every destination
and capacity: the keyframe that could be read before the delivery is
gone. -/
theorem C16_allocation_failure_failing_input :
    (chiaki_python_session_get_iframe
      (deliver_all calloc_session
        [whole [0, 0, 0, 1, 0x67, 0x42], whole [0, 0, 0, 1, 0x65, 0x88]])
      (some [9, 9, 9, 9, 9, 9, 9, 9, 9, 9, 9, 9]) 12).ret = 12 ∧
    (chiaki_python_session_has_iframe
      (deliver_all calloc_session
        [whole [0, 0, 0, 1, 0x67, 0x42], whole [0, 0, 0, 1, 0x65, 0x88],
         { buf := [0, 0, 0, 1, 0x65, 0x99], buf_size := 6, frames_lost := 0,
           frame_recovered := false,
           malloc := { latest_ok := true, sps_pps_ok := true, iframe_ok := false } }])).1
      = true ∧
    (deliver_all calloc_session
        [whole [0, 0, 0, 1, 0x67, 0x42], whole [0, 0, 0, 1, 0x65, 0x88],
         { buf := [0, 0, 0, 1, 0x65, 0x99], buf_size := 6, frames_lost := 0,
           frame_recovered := false,
           malloc := { latest_ok := true, sps_pps_ok := true, iframe_ok := false } }]).iframe
      = none ∧
    (∀ buffer cap,
      (chiaki_python_session_get_iframe
        (deliver_all calloc_session
          [whole [0, 0, 0, 1, 0x67, 0x42], whole [0, 0, 0, 1, 0x65, 0x88],
           { buf := [0, 0, 0, 1, 0x65, 0x99], buf_size := 6, frames_lost := 0,
             frame_recovered := false,
             malloc := { latest_ok := true, sps_pps_ok := true, iframe_ok := false } }])
        buffer cap).ret = 0) := by
  refine ⟨by decide, by decide, by decide, fun buffer cap => ?_⟩
  rw [get_iframe_no_block _ (by decide)]

/-! ## End to end -/

/-- The callback does not read the loss counter and the recovery flag: with
every allocation succeeding, its effect on the session is that of delivering
the whole buffer. -/
theorem video_frame_cb_whole (buf : List Nat) (fl : Int) (fr : Bool) (s : PythonSession) :
    (video_frame_cb buf buf.length fl fr malloc_ok s).2 = deliver s (whole buf) := rfl

/-- A whole unit of type 7 or 8 and of at most 50000 bytes, delivered with
every allocation succeeding, becomes the latest frame and the cached header
and leaves the I-frame slot alone. -/
theorem deliver_small_header_unit (s : PythonSession) (U : List Nat) (hne : U ≠ [])
    (ht : get_first_nal_type U U.length = 7 ∨ get_first_nal_type U U.length = 8)
    (hsmall : U.length ≤ 50000) :
    deliver s (whole U) =
      { s with
        latest_frame := some U
        latest_frame_size := U.length
        frame_seq := (s.frame_seq + 1) % UINT64_MOD
        sps_pps := some U
        sps_pps_size := U.length } := by
  rw [deliver_header_unit s U hne ht]
  apply store_iframe_not_key _ _ _ _ _ _ hsmall
  rcases ht with ht | ht <;>
    · rw [ht]
      decide

/-- A whole I-frame unit (type 5, or more than 50000 bytes) that is not of
type 7 or 8, delivered with every allocation succeeding on a session whose
cached header `P` is non-empty and fits with it: the unit becomes the latest
frame and the keyframe is `P` followed by the unit. -/
theorem deliver_key_unit (s : PythonSession) (P U : List Nat)
    (hP : s.sps_pps = some P) (hPsize : s.sps_pps_size = P.length) (hPne : P ≠ [])
    (hUne : U ≠ [])
    (hkey : get_first_nal_type U U.length = 5 ∨ 50000 < U.length)
    (h7 : get_first_nal_type U U.length ≠ 7) (h8 : get_first_nal_type U U.length ≠ 8)
    (hfit : P.length + U.length ≤ MAX_FRAME_SIZE) :
    deliver s (whole U) =
      { s with
        latest_frame := some U
        latest_frame_size := U.length
        frame_seq := (s.frame_seq + 1) % UINT64_MOD
        iframe := some (P ++ U)
        iframe_size := P.length + U.length
        have_iframe := true } := by
  have hn : U.length ≠ 0 := fun h => hUne (List.length_eq_zero.mp h)
  have hPpos : 0 < P.length := List.length_pos.mpr hPne
  have hmod : (P.length + U.length) % SIZE_T_MOD = P.length + U.length := by
    apply Nat.mod_eq_of_lt
    unfold MAX_FRAME_SIZE at hfit
    unfold SIZE_T_MOD
    omega
  have hl := store_latest_frame U U.length malloc_ok s
  have hs1 : (store_latest U U.length malloc_ok s).sps_pps = some P := by rw [hl.1, hP]
  have hs2 : (store_latest U U.length malloc_ok s).sps_pps_size = P.length := by
    rw [hl.2.1, hPsize]
  have hguard : synthesis_guard U.length (get_first_nal_type U U.length) malloc_ok
      (store_latest U U.length malloc_ok s) = true := by
    simp only [synthesis_guard, hs1, hs2, hmod, Option.isSome_some, Bool.and_true,
      Bool.and_eq_true, Bool.or_eq_true, decide_eq_true_eq, beq_iff_eq]
    exact ⟨⟨⟨hkey, hPpos⟩, hfit⟩, rfl⟩
  unfold deliver whole
  simp only []
  rw [video_frame_cb_blocks U U.length 0 false malloc_ok s hn,
    store_header_other U U.length _ malloc_ok _ h7 h8,
    store_iframe_synthesis U U.length _ malloc_ok _ P hs1 hguard]
  simp [hs2, hmod]
  simp [store_latest, malloc_ok, hPsize]

/-- C17, as amended: the end-to-end scenario, with every allocation
succeeding.  `A` is any 10-byte unit beginning `00 00 00 01 67` and `B` any
100-byte unit beginning `00 00 00 01 65`.  After `A` is delivered to a fresh
session the latest-frame read (capacity at least 10) returns the 10 bytes of
`A` with sequence number 1 and no keyframe is available; after `B` is then
delivered the latest-frame read (capacity at least 100) returns the 100
bytes of `B` with sequence number 2, a keyframe is available, and the
keyframe read (capacity at least 110) returns 110 bytes, `A` followed by
`B`. -/
theorem C17_end_to_end (A B ra rb dst1 dst2 dst3 : List Nat) (cap1 cap2 cap3 seq0 : Nat)
    (fl1 fl2 : Int) (fr1 fr2 : Bool)
    (hA : A = [0, 0, 0, 1, 0x67] ++ ra) (hra : ra.length = 5)
    (hB : B = [0, 0, 0, 1, 0x65] ++ rb) (hrb : rb.length = 95)
    (hcap1 : 10 ≤ cap1) (hcap2 : 100 ≤ cap2) (hcap3 : 110 ≤ cap3) :
    chiaki_python_session_get_frame_ex
        (video_frame_cb A A.length fl1 fr1 malloc_ok calloc_session).2
        (some dst1) cap1 (some seq0)
      = { ret := 10
          buffer := some (A ++ dst1.drop 10)
          seq_out := some 1
          sess := (video_frame_cb A A.length fl1 fr1 malloc_ok calloc_session).2 } ∧
    (chiaki_python_session_has_iframe
      (video_frame_cb A A.length fl1 fr1 malloc_ok calloc_session).2).1 = false ∧
    chiaki_python_session_get_frame_ex
        (video_frame_cb B B.length fl2 fr2 malloc_ok
          (video_frame_cb A A.length fl1 fr1 malloc_ok calloc_session).2).2
        (some dst2) cap2 (some seq0)
      = { ret := 100
          buffer := some (B ++ dst2.drop 100)
          seq_out := some 2
          sess := (video_frame_cb B B.length fl2 fr2 malloc_ok
            (video_frame_cb A A.length fl1 fr1 malloc_ok calloc_session).2).2 } ∧
    (chiaki_python_session_has_iframe
      (video_frame_cb B B.length fl2 fr2 malloc_ok
        (video_frame_cb A A.length fl1 fr1 malloc_ok calloc_session).2).2).1 = true ∧
    chiaki_python_session_get_iframe
        (video_frame_cb B B.length fl2 fr2 malloc_ok
          (video_frame_cb A A.length fl1 fr1 malloc_ok calloc_session).2).2
        (some dst3) cap3
      = { ret := 110
          buffer := some (A ++ B ++ dst3.drop 110)
          sess := (video_frame_cb B B.length fl2 fr2 malloc_ok
            (video_frame_cb A A.length fl1 fr1 malloc_ok calloc_session).2).2 } := by
  have hlenA : A.length = 10 := by
    rw [hA, List.length_append, hra]
    rfl
  have hlenB : B.length = 100 := by
    rw [hB, List.length_append, hrb]
    rfl
  have htA : get_first_nal_type A A.length = 7 := by
    have h := nal_type_start4 0x67 ra A.length (by omega)
    have h7 : ((0x67 &&& 0x1f : Nat) : Int) = 7 := by decide
    rw [← h7, ← h, hA]
    rfl
  have htB : get_first_nal_type B B.length = 5 := by
    have h := nal_type_start4 0x65 rb B.length (by omega)
    have h5 : ((0x65 &&& 0x1f : Nat) : Int) = 5 := by decide
    rw [← h5, ← h, hB]
    rfl
  have hAne : A ≠ [] := by
    intro h
    rw [h] at hlenA
    simp at hlenA
  have hBne : B ≠ [] := by
    intro h
    rw [h] at hlenB
    simp at hlenB
  have hmax : MAX_FRAME_SIZE = 4194304 := by decide
  have hsA := deliver_small_header_unit calloc_session A hAne (Or.inl htA) (by omega)
  have hsB := deliver_key_unit (deliver calloc_session (whole A)) A B
    (by rw [hsA]) (by rw [hsA]) hAne hBne (Or.inl htB) (by rw [htB]; decide)
    (by rw [htB]; decide) (by omega)
  have hseq1 : (calloc_session.frame_seq + 1) % UINT64_MOD = 1 := by decide
  have hseq2 : (1 + 1) % UINT64_MOD = 2 := by decide
  rw [video_frame_cb_whole B fl2 fr2, video_frame_cb_whole A fl1 fr1]
  refine ⟨?_, ?_, ?_, ?_, ?_⟩
  · rw [get_frame_ex_fits _ A dst1 cap1 (some seq0) (by rw [hsA]) (by rw [hsA]) (by omega),
      hlenA]
    have hq : (deliver calloc_session (whole A)).frame_seq = 1 := by rw [hsA]; exact hseq1
    rw [hq]
    rfl
  · rw [has_iframe_fst, hsA]
    rfl
  · rw [get_frame_ex_fits _ B dst2 cap2 (some seq0) (by rw [hsB]) (by rw [hsB]) (by omega),
      hlenB]
    have hq : (deliver (deliver calloc_session (whole A)) (whole B)).frame_seq = 2 := by
      rw [hsB]
      show ((deliver calloc_session (whole A)).frame_seq + 1) % UINT64_MOD = 2
      rw [hsA]
      show ((calloc_session.frame_seq + 1) % UINT64_MOD + 1) % UINT64_MOD = 2
      rw [hseq1, hseq2]
    rw [hq]
    rfl
  · rw [has_iframe_fst, hsB]
  · rw [get_iframe_flag_up _ (A ++ B) dst3 cap3 (by rw [hsB]) (by rw [hsB])
      (by rw [hsB]; show A.length + B.length ≤ cap3; omega)]
    have hsz : (deliver (deliver calloc_session (whole A)) (whole B)).iframe_size = 110 := by
      rw [hsB]
      show A.length + B.length = 110
      omega
    rw [hsz]
    have htake : (A ++ B).take 110 = A ++ B :=
      List.take_of_length_le (by rw [List.length_append]; omega)
    rw [htake]

/-- C17, witness: the scenario on `scenario_A` and `scenario_B`, with
destinations of exactly 10, 100 and 110 bytes; the keyframe read returns 110
bytes and the latest-frame reads report sequence numbers 1 and 2. -/
theorem C17_end_to_end_witness :
    (chiaki_python_session_get_frame_ex
      (video_frame_cb scenario_A scenario_A.length 0 false malloc_ok calloc_session).2
      (some (List.replicate 10 0)) 10 (some 0)).seq_out = some 1 ∧
    (chiaki_python_session_get_frame_ex
      (video_frame_cb scenario_B scenario_B.length 0 false malloc_ok
        (video_frame_cb scenario_A scenario_A.length 0 false malloc_ok calloc_session).2).2
      (some (List.replicate 100 0)) 100 (some 0)).seq_out = some 2 ∧
    (chiaki_python_session_get_iframe
      (video_frame_cb scenario_B scenario_B.length 0 false malloc_ok
        (video_frame_cb scenario_A scenario_A.length 0 false malloc_ok calloc_session).2).2
      (some (List.replicate 110 0)) 110).ret = 110 := by
  have h := C17_end_to_end scenario_A scenario_B [0x42, 0xc0, 0x1f, 0x8c, 0x8d]
    (List.replicate 95 0x11) (List.replicate 10 0) (List.replicate 100 0)
    (List.replicate 110 0) 10 100 110 0 0 0 false false
    rfl rfl rfl (List.length_replicate 95 0x11)
    (Nat.le_refl 10) (Nat.le_refl 100) (Nat.le_refl 110)
  exact ⟨congrArg FrameExResult.seq_out h.1, congrArg FrameExResult.seq_out h.2.2.1,
    congrArg IframeResult.ret h.2.2.2.2⟩

/-- C17, counterexample: `scenario_A`, a 10-byte unit beginning
`00 00 00 01 67`, is delivered to a fresh session and the `malloc` of the
latest-frame block fails.  The latest-frame read that follows returns 0 and
leaves the destination and the sequence cell as they were, and the sequence
number is still 0. -/
theorem C17_end_to_end_counterexample :
    scenario_A = [0, 0, 0, 1, 0x67] ++ [0x42, 0xc0, 0x1f, 0x8c, 0x8d] ∧
    scenario_A.length = 10 ∧
    chiaki_python_session_get_frame_ex
        (video_frame_cb scenario_A scenario_A.length 0 false
          { latest_ok := false, sps_pps_ok := true, iframe_ok := true } calloc_session).2
        (some [9, 9, 9, 9, 9, 9, 9, 9, 9, 9]) 10 (some 7)
      = { ret := 0
          buffer := some [9, 9, 9, 9, 9, 9, 9, 9, 9, 9]
          seq_out := some 7
          sess := (video_frame_cb scenario_A scenario_A.length 0 false
            { latest_ok := false, sps_pps_ok := true, iframe_ok := true } calloc_session).2 } ∧
    (chiaki_python_session_get_frame_seq
      (video_frame_cb scenario_A scenario_A.length 0 false
        { latest_ok := false, sps_pps_ok := true, iframe_ok := true } calloc_session).2).1
      = 0 := by
  decide

/-! ## A large header unit -/

/-- C19: on any session, a unit `U` of first NAL type 7 or 8, of more than
50000 bytes and with `2 * len U <= MAX_FRAME_SIZE`, is delivered with every
allocation succeeding.  Afterwards the cached header is `U`,
`chiaki_python_session_has_iframe` answers true and
`chiaki_python_session_get_iframe` with capacity at least `2 * len U`
returns `2 * len U` bytes, `U` followed by `U`, whatever header was cached
before. -/
theorem C19_large_header_unit (sess : PythonSession) (U dst : List Nat) (cap : Nat)
    (frames_lost : Int) (frame_recovered : Bool)
    (ht : get_first_nal_type U U.length = 7 ∨ get_first_nal_type U U.length = 8)
    (hlarge : 50000 < U.length)
    (hfit : 2 * U.length ≤ MAX_FRAME_SIZE)
    (hcap : 2 * U.length ≤ cap) :
    (video_frame_cb U U.length frames_lost frame_recovered malloc_ok sess).2.sps_pps
      = some U ∧
    (chiaki_python_session_has_iframe
      (video_frame_cb U U.length frames_lost frame_recovered malloc_ok sess).2).1 = true ∧
    chiaki_python_session_get_iframe
        (video_frame_cb U U.length frames_lost frame_recovered malloc_ok sess).2
        (some dst) cap
      = { ret := 2 * U.length
          buffer := some (U ++ U ++ dst.drop (2 * U.length))
          sess := (video_frame_cb U U.length frames_lost frame_recovered malloc_ok sess).2 } := by
  have h2 : 2 * U.length = U.length + U.length := Nat.two_mul _
  rw [h2] at hfit hcap
  obtain ⟨h1, hb, hsz, hp⟩ := deliver_large_header_unit sess U ht hlarge hfit
  rw [video_frame_cb_whole U frames_lost frame_recovered sess, h2]
  refine ⟨hp, ?_, ?_⟩
  · rw [has_iframe_fst]
    exact h1
  · rw [get_iframe_flag_up _ (U ++ U) dst cap h1 hb (by rw [hsz]; exact hcap), hsz]
    have htake : (U ++ U).take (U.length + U.length) = U ++ U :=
      List.take_of_length_le (by rw [List.length_append])
    rw [htake]

/-- C19, witness: the unit `sps_unit 49996` (50001 bytes, NAL type 7)
arrives on a session whose cached header is `00 00 00 01 67 42`; the header
slot then holds the unit and a keyframe is available. -/
theorem C19_large_header_unit_witness :
    (video_frame_cb (sps_unit 49996) (sps_unit 49996).length 0 false malloc_ok
      (deliver calloc_session (whole [0, 0, 0, 1, 0x67, 0x42]))).2.sps_pps
      = some (sps_unit 49996) ∧
    (chiaki_python_session_has_iframe
      (video_frame_cb (sps_unit 49996) (sps_unit 49996).length 0 false malloc_ok
        (deliver calloc_session (whole [0, 0, 0, 1, 0x67, 0x42]))).2).1 = true := by
  have hlen : (sps_unit 49996).length = 50001 := sps_unit_length 49996
  have hmax : MAX_FRAME_SIZE = 4194304 := by decide
  have h := C19_large_header_unit (deliver calloc_session (whole [0, 0, 0, 1, 0x67, 0x42]))
    (sps_unit 49996) (List.replicate MAX_FRAME_SIZE 0) MAX_FRAME_SIZE 0 false
    (Or.inl (sps_unit_type 49996)) (by omega) (by omega) (by omega)
  exact ⟨h.1, h.2.1⟩

/-! ## Delta units and the header decision -/

/-- The second test of line 114 adds nothing to the first. -/
theorem header_test_redundant (n : Nat) (t : Int) :
    ((t == 7 || t == 8) || (decide (n < 500) && t == 7)) = (t == 7 || t == 8) := by
  cases h7 : (t == 7) <;> simp

/-- A unit of type 7 or 8 whose header allocation succeeds is what the header
slot holds after the header block. -/
theorem store_header_replaces (buf : List Nat) (n : Nat) (t : Int) (m : MallocOutcome)
    (s : PythonSession) (ht : t = 7 ∨ t = 8) (hm : m.sps_pps_ok = true) :
    (store_header buf n t m s).sps_pps = some (buf.take n) ∧
    (store_header buf n t m s).sps_pps_size = n := by
  rcases ht with ht | ht <;> simp [store_header, ht, hm]

/-- C18, as amended: a whole non-empty unit is delivered on any session.  When its first
NAL type is none of 5, 7, 8 and it has at most 50000 bytes, the cached
header, the keyframe bytes, the keyframe length and the have-keyframe flag
are left as they were, and, the latest-frame allocation succeeding, the unit
becomes the latest unit and the sequence number moves on by one (modulo
`2 ^ 64`).  The cached header is replaced by the unit, the header allocation
succeeding, when the first NAL type is 7 or 8, whatever the size, and is
left alone otherwise; the test `buf_size < 500 && nal_type == 7` never
changes that decision. -/
theorem C18_delta_units (sess : PythonSession) (d : Delivery)
    (hwhole : d.buf_size = d.buf.length) (hne : d.buf ≠ []) :
    ((get_first_nal_type d.buf d.buf_size ≠ 5 ∧ get_first_nal_type d.buf d.buf_size ≠ 7 ∧
        get_first_nal_type d.buf d.buf_size ≠ 8 ∧ d.buf_size ≤ 50000) →
      (deliver sess d).sps_pps = sess.sps_pps ∧
      (deliver sess d).sps_pps_size = sess.sps_pps_size ∧
      (deliver sess d).iframe = sess.iframe ∧
      (deliver sess d).iframe_size = sess.iframe_size ∧
      (deliver sess d).have_iframe = sess.have_iframe ∧
      (d.malloc.latest_ok = true →
        (deliver sess d).latest_frame = some d.buf ∧
        (deliver sess d).latest_frame_size = d.buf.length ∧
        (deliver sess d).frame_seq = (sess.frame_seq + 1) % UINT64_MOD ∧
        (sess.frame_seq + 1 < UINT64_MOD →
          (deliver sess d).frame_seq = sess.frame_seq + 1))) ∧
    ((get_first_nal_type d.buf d.buf_size = 7 ∨ get_first_nal_type d.buf d.buf_size = 8) →
      d.malloc.sps_pps_ok = true →
      (deliver sess d).sps_pps = some d.buf ∧
      (deliver sess d).sps_pps_size = d.buf.length) ∧
    ((get_first_nal_type d.buf d.buf_size ≠ 7 ∧ get_first_nal_type d.buf d.buf_size ≠ 8) →
      (deliver sess d).sps_pps = sess.sps_pps ∧
      (deliver sess d).sps_pps_size = sess.sps_pps_size) ∧
    (((get_first_nal_type d.buf d.buf_size == 7 || get_first_nal_type d.buf d.buf_size == 8)
        || (decide (d.buf_size < 500) && get_first_nal_type d.buf d.buf_size == 7))
      = (get_first_nal_type d.buf d.buf_size == 7
          || get_first_nal_type d.buf d.buf_size == 8)) := by
  have hn : d.buf_size ≠ 0 := by
    rw [hwhole]
    exact fun h => hne (List.length_eq_zero.mp h)
  have hl := store_latest_frame d.buf d.buf_size d.malloc sess
  have hdel : deliver sess d =
      store_iframe d.buf d.buf_size (get_first_nal_type d.buf d.buf_size) d.malloc
        (store_header d.buf d.buf_size (get_first_nal_type d.buf d.buf_size) d.malloc
          (store_latest d.buf d.buf_size d.malloc sess)) := by
    unfold deliver
    rw [video_frame_cb_blocks d.buf d.buf_size d.frames_lost d.frame_recovered d.malloc sess hn]
  have hi := store_iframe_frame d.buf d.buf_size (get_first_nal_type d.buf d.buf_size) d.malloc
    (store_header d.buf d.buf_size (get_first_nal_type d.buf d.buf_size) d.malloc
      (store_latest d.buf d.buf_size d.malloc sess))
  refine ⟨?_, ?_, ?_, header_test_redundant _ _⟩
  · rintro ⟨h5, h7, h8, hsmall⟩
    have hstep : deliver sess d = store_latest d.buf d.buf_size d.malloc sess := by
      rw [hdel, store_header_other d.buf d.buf_size _ d.malloc _ h7 h8,
        store_iframe_not_key d.buf d.buf_size _ d.malloc _ h5 hsmall]
    rw [hstep]
    refine ⟨hl.1, hl.2.1, hl.2.2.1, hl.2.2.2.1, hl.2.2.2.2.1, fun hm => ?_⟩
    have htake : d.buf.take d.buf_size = d.buf := by
      rw [hwhole]
      exact List.take_length _
    refine ⟨?_, ?_, ?_, ?_⟩
    · simp [store_latest, hm, htake]
    · simp [store_latest, hm, hwhole]
    · simp [store_latest, hm]
    · intro hlt
      simp [store_latest, hm, Nat.mod_eq_of_lt hlt]
  · intro ht hm
    have hh := store_header_replaces d.buf d.buf_size _ d.malloc
      (store_latest d.buf d.buf_size d.malloc sess) ht hm
    rw [hdel, hi.2.2.2.1, hi.2.2.2.2.1, hh.1, hh.2, hwhole, List.take_length]
    exact ⟨rfl, rfl⟩
  · rintro ⟨h7, h8⟩
    rw [hdel, hi.2.2.2.1, hi.2.2.2.2.1,
      store_header_other d.buf d.buf_size _ d.malloc _ h7 h8]
    exact ⟨hl.1, hl.2.1⟩

/-- C18, witness: the delta unit `00 00 00 01 41 9a` arrives on a session
that holds a header and a keyframe; the flag stays up and the sequence
number goes from 2 to 3. -/
theorem C18_delta_units_witness :
    (deliver
      (deliver_all calloc_session
        [whole [0, 0, 0, 1, 0x67, 0x42], whole [0, 0, 0, 1, 0x65, 0x88]])
      (whole [0, 0, 0, 1, 0x41, 0x9a])).have_iframe = true ∧
    (deliver
      (deliver_all calloc_session
        [whole [0, 0, 0, 1, 0x67, 0x42], whole [0, 0, 0, 1, 0x65, 0x88]])
      (whole [0, 0, 0, 1, 0x41, 0x9a])).frame_seq = 3 := by
  have h := (C18_delta_units
    (deliver_all calloc_session
      [whole [0, 0, 0, 1, 0x67, 0x42], whole [0, 0, 0, 1, 0x65, 0x88]])
    (whole [0, 0, 0, 1, 0x41, 0x9a]) rfl (by decide)).1 (by decide)
  exact ⟨h.2.2.2.2.1.trans (by decide), (h.2.2.2.2.2 rfl).2.2.1.trans (by decide)⟩

/-- C18, counterexample: on a session that holds a header and a keyframe
(sequence number 2, latest unit `00 00 00 01 65 88`), the delta unit
`00 00 00 01 41 9a` is delivered and the `malloc` of the latest-frame block
fails: no latest unit is held afterwards and the sequence number is still 2.
On the same session the PPS unit `00 00 00 01 68 ce` is delivered and the
`malloc` of the header block fails: the header slot is empty afterwards, not
the unit's bytes. -/
theorem C18_delta_units_counterexample :
    get_first_nal_type [0, 0, 0, 1, 0x41, 0x9a] 6 = 1 ∧
    (deliver_all calloc_session
      [whole [0, 0, 0, 1, 0x67, 0x42], whole [0, 0, 0, 1, 0x65, 0x88]]).frame_seq = 2 ∧
    (deliver
      (deliver_all calloc_session
        [whole [0, 0, 0, 1, 0x67, 0x42], whole [0, 0, 0, 1, 0x65, 0x88]])
      { buf := [0, 0, 0, 1, 0x41, 0x9a], buf_size := 6, frames_lost := 0,
        frame_recovered := false,
        malloc := { latest_ok := false, sps_pps_ok := true, iframe_ok := true } }).latest_frame
      = none ∧
    (deliver
      (deliver_all calloc_session
        [whole [0, 0, 0, 1, 0x67, 0x42], whole [0, 0, 0, 1, 0x65, 0x88]])
      { buf := [0, 0, 0, 1, 0x41, 0x9a], buf_size := 6, frames_lost := 0,
        frame_recovered := false,
        malloc := { latest_ok := false, sps_pps_ok := true, iframe_ok := true } }).frame_seq
      = 2 ∧
    get_first_nal_type [0, 0, 0, 1, 0x68, 0xce] 6 = 8 ∧
    (deliver
      (deliver_all calloc_session
        [whole [0, 0, 0, 1, 0x67, 0x42], whole [0, 0, 0, 1, 0x65, 0x88]])
      { buf := [0, 0, 0, 1, 0x68, 0xce], buf_size := 6, frames_lost := 0,
        frame_recovered := false,
        malloc := { latest_ok := true, sps_pps_ok := false, iframe_ok := true } }).sps_pps
      = none := by
  decide

/-! ## Reachable sessions -/

/-- A buffer classified as type 7 or 8 has at least five bytes. -/
theorem header_length (P : List Nat)
    (h : get_first_nal_type P P.length = 7 ∨ get_first_nal_type P P.length = 8) :
    5 ≤ P.length := by
  by_contra hlt
  have hlt5 : P.length < 5 := by omega
  have h1 : get_first_nal_type P P.length = -1 := by simp [get_first_nal_type, hlt5]
  rw [h1] at h
  rcases h with h | h <;> exact absurd h (by decide)

/-- The classifier looks at the first five bytes only. -/
theorem nal_type_front (P X : List Nat) (m : Nat) (hP : 5 ≤ P.length) (hm : 5 ≤ m) :
    get_first_nal_type (P ++ X) m = get_first_nal_type P P.length := by
  rcases P with _ | ⟨a, _ | ⟨b, _ | ⟨c, _ | ⟨d, _ | ⟨e, rest⟩⟩⟩⟩⟩
  · simp at hP
  · simp at hP
  · simp at hP
  · simp at hP
  · simp at hP
  · have h1 : ¬ m < 5 := by omega
    have h2 : ¬ (a :: b :: c :: d :: e :: rest).length < 5 := by simp
    simp only [get_first_nal_type, byte_at, h1, h2, if_false, List.cons_append,
      List.getD_cons_zero, List.getD_cons_succ]

/-- The I-frame block keeps the slots consistent when the unit is an object
in memory. -/
theorem store_iframe_consistent (buf : List Nat) (n : Nat) (t : Int) (m : MallocOutcome)
    (s : PythonSession) (h : slots_consistent s) (hn : n = buf.length) (hpos : n ≠ 0)
    (hmax : n ≤ PTRDIFF_MAX) :
    slots_consistent (store_iframe buf n t m s) := by
  obtain ⟨hI1, hI2⟩ := h
  unfold store_iframe
  simp only []
  cases hs : s.sps_pps with
  | none => exact ⟨hI1, hI2⟩
  | some hdr =>
    obtain ⟨hsz, hlen, hty⟩ := hI1 hdr hs
    simp only []
    split_ifs with h1 h2 h3
    · have hmod : (s.sps_pps_size + n) % SIZE_T_MOD = hdr.length + n := by
        rw [hsz]
        apply Nat.mod_eq_of_lt
        unfold PTRDIFF_MAX at hlen hmax
        unfold SIZE_T_MOD
        omega
      have hbytes : (hdr.take s.sps_pps_size ++ buf.take n).take
          ((s.sps_pps_size + n) % SIZE_T_MOD) = hdr ++ buf := by
        rw [hmod, hsz, hn, List.take_length, List.take_length]
        exact List.take_of_length_le (by rw [List.length_append])
      have h5 := header_length hdr hty
      refine ⟨?_, ?_⟩
      · intro P hP
        exact hI1 P (by simpa [hs] using hP)
      · intro b hb
        simp only [Option.some.injEq] at hb
        rw [hbytes] at hb
        subst hb
        refine ⟨?_, ?_, ?_⟩
        · show (hdr ++ buf).length = (s.sps_pps_size + n) % SIZE_T_MOD
          rw [hmod, List.length_append, hn]
        · rw [List.length_append]
          have : buf.length ≠ 0 := by rw [← hn]; exact hpos
          omega
        · rw [nal_type_front hdr buf _ h5 (by rw [List.length_append]; omega)]
          exact hty
    · refine ⟨?_, ?_⟩
      · intro P hP
        exact hI1 P (by simpa [hs] using hP)
      · intro b hb
        simp at hb
    · refine ⟨?_, hI2⟩
      intro P hP
      exact hI1 P (by simpa [hs] using hP)
    · refine ⟨?_, hI2⟩
      intro P hP
      exact hI1 P (by simpa [hs] using hP)

/-- The header block keeps the slots consistent when the unit is an object in
memory and has been classified from its own bytes. -/
theorem store_header_consistent (buf : List Nat) (n : Nat) (m : MallocOutcome)
    (s : PythonSession) (h : slots_consistent s) (hn : n = buf.length)
    (hmax : n ≤ PTRDIFF_MAX) :
    slots_consistent (store_header buf n (get_first_nal_type buf n) m s) := by
  obtain ⟨hI1, hI2⟩ := h
  have hf := store_header_frame buf n (get_first_nal_type buf n) m s
  refine ⟨?_, ?_⟩
  · by_cases ht : get_first_nal_type buf n = 7 ∨ get_first_nal_type buf n = 8
    · cases hm : m.sps_pps_ok with
      | true =>
        obtain ⟨h1, h2⟩ := store_header_replaces buf n _ m s ht hm
        intro P hP
        rw [h1, hn, List.take_length] at hP
        simp only [Option.some.injEq] at hP
        subst hP
        rw [h2]
        rw [hn] at ht hmax
        exact ⟨hn, hmax, ht⟩
      | false =>
        intro P hP
        rcases ht with ht | ht <;> simp [store_header, ht, hm] at hP
    · have h7 : get_first_nal_type buf n ≠ 7 := fun h => ht (Or.inl h)
      have h8 : get_first_nal_type buf n ≠ 8 := fun h => ht (Or.inr h)
      rw [store_header_other buf n _ m s h7 h8]
      exact hI1
  · intro b hb
    rw [hf.2.2.2.1] at hb
    rw [hf.2.2.2.2.1]
    exact hI2 b hb

/-- One delivery of a unit that is an object in memory keeps the slots
consistent, whatever the allocator does. -/
theorem deliver_consistent (s : PythonSession) (d : Delivery) (h : slots_consistent s)
    (hd : real_unit d = true) : slots_consistent (deliver s d) := by
  simp only [real_unit, Bool.and_eq_true, decide_eq_true_eq] at hd
  obtain ⟨hn, hmax⟩ := hd
  by_cases h0 : d.buf_size = 0
  · rw [deliver_empty s d h0]
    exact h
  · unfold deliver
    rw [video_frame_cb_blocks d.buf d.buf_size d.frames_lost d.frame_recovered d.malloc s h0]
    apply store_iframe_consistent _ _ _ _ _ _ hn h0 (by rw [hn]; exact hmax)
    apply store_header_consistent _ _ _ _ _ hn (by rw [hn]; exact hmax)
    have hl := store_latest_frame d.buf d.buf_size d.malloc s
    unfold slots_consistent
    rw [hl.1, hl.2.1, hl.2.2.1, hl.2.2.2.1]
    exact h

/-- Every call keeps the slots consistent when the units delivered are
objects in memory. -/
theorem step_consistent (s : PythonSession) (op : Op) (h : slots_consistent s)
    (hop : real_op op = true) : slots_consistent (step s op) := by
  cases op with
  | video_frame d => exact deliver_consistent s d h hop
  | get_frame_ex buffer n q =>
    show slots_consistent (chiaki_python_session_get_frame_ex s buffer n q).sess
    rw [(reads_keep_session s buffer n q).1]
    exact h
  | get_frame buffer n =>
    show slots_consistent (chiaki_python_session_get_frame s buffer n).sess
    rw [(reads_keep_session s buffer n none).2.1]
    exact h
  | get_frame_seq => exact h
  | get_iframe buffer n =>
    show slots_consistent (chiaki_python_session_get_iframe s buffer n).sess
    rw [(reads_keep_session s buffer n none).2.2.2.1]
    exact h
  | has_iframe => exact h
  | clear_iframe => exact h

/-- Every session reached from a fresh one by deliveries of units that are
objects in memory, reads and clears has consistent slots. -/
theorem run_consistent (ops : List Op) (s : PythonSession) (h : slots_consistent s)
    (hops : ∀ op ∈ ops, real_op op = true) : slots_consistent (run s ops) := by
  induction ops generalizing s with
  | nil => exact h
  | cons op ops ih =>
    exact ih (step s op) (step_consistent s op h (hops op (List.mem_cons_self _ _)))
      (fun o ho => hops o (List.mem_cons_of_mem _ ho))

/-- The slots of a fresh session are consistent. -/
theorem calloc_consistent : slots_consistent calloc_session := by
  refine ⟨?_, ?_⟩
  · intro P hP
    cases hP
  · intro b hb
    cases hb

/-- One delivery whose allocations all succeed keeps a raised flag backed by
a block. -/
theorem deliver_flag_backed (s : PythonSession) (d : Delivery) (h : flag_backed s)
    (hm : d.malloc = malloc_ok) : flag_backed (deliver s d) := by
  by_cases h0 : d.buf_size = 0
  · rw [deliver_empty s d h0]
    exact h
  · have hl := store_latest_frame d.buf d.buf_size d.malloc s
    have hh := store_header_frame d.buf d.buf_size (get_first_nal_type d.buf d.buf_size)
      d.malloc (store_latest d.buf d.buf_size d.malloc s)
    unfold deliver
    rw [video_frame_cb_blocks d.buf d.buf_size d.frames_lost d.frame_recovered d.malloc s h0]
    cases hg : synthesis_guard d.buf_size (get_first_nal_type d.buf d.buf_size) d.malloc
        (store_header d.buf d.buf_size (get_first_nal_type d.buf d.buf_size) d.malloc
          (store_latest d.buf d.buf_size d.malloc s)) with
    | false =>
      have hok : d.malloc.iframe_ok = true := by rw [hm]; rfl
      rw [(store_iframe_no_synthesis d.buf d.buf_size _ d.malloc _ hg).2.2 hok]
      unfold flag_backed
      rw [hh.2.2.2.2.2.1, hh.2.2.2.1, hl.2.2.2.2.1, hl.2.2.1]
      exact h
    | true =>
      have hsome : (store_header d.buf d.buf_size (get_first_nal_type d.buf d.buf_size)
          d.malloc (store_latest d.buf d.buf_size d.malloc s)).sps_pps.isSome = true := by
        unfold synthesis_guard at hg
        simp only [Bool.and_eq_true] at hg
        exact hg.1.1.1.2
      obtain ⟨hdr, hhdr⟩ := Option.isSome_iff_exists.mp hsome
      rw [store_iframe_synthesis d.buf d.buf_size _ d.malloc _ hdr hhdr hg]
      intro _
      rfl

/-- Every call whose allocations all succeed keeps a raised flag backed by a
block. -/
theorem step_flag_backed (s : PythonSession) (op : Op) (h : flag_backed s)
    (hop : alloc_ok_op op = true) : flag_backed (step s op) := by
  cases op with
  | video_frame d =>
    exact deliver_flag_backed s d h (by simpa [alloc_ok_op] using hop)
  | get_frame_ex buffer n q =>
    show flag_backed (chiaki_python_session_get_frame_ex s buffer n q).sess
    rw [(reads_keep_session s buffer n q).1]
    exact h
  | get_frame buffer n =>
    show flag_backed (chiaki_python_session_get_frame s buffer n).sess
    rw [(reads_keep_session s buffer n none).2.1]
    exact h
  | get_frame_seq => exact h
  | get_iframe buffer n =>
    show flag_backed (chiaki_python_session_get_iframe s buffer n).sess
    rw [(reads_keep_session s buffer n none).2.2.2.1]
    exact h
  | has_iframe => exact h
  | clear_iframe =>
    intro hc
    exact absurd hc (by simp [step, chiaki_python_session_clear_iframe])

/-- In every session reached from a fresh one with all allocations
succeeding, a raised flag is backed by a block. -/
theorem run_flag_backed (ops : List Op) (s : PythonSession) (h : flag_backed s)
    (hops : ∀ op ∈ ops, alloc_ok_op op = true) : flag_backed (run s ops) := by
  induction ops generalizing s with
  | nil => exact h
  | cons op ops ih =>
    exact ih (step s op) (step_flag_backed s op h (hops op (List.mem_cons_self _ _)))
      (fun o ho => hops o (List.mem_cons_of_mem _ ho))

/-- What `chiaki_python_session_get_iframe` does on a non-NULL destination,
case by case. -/
theorem get_iframe_cases (s : PythonSession) (dst : List Nat) (cap : Nat) :
    (∃ b, s.iframe = some b ∧ s.have_iframe = true ∧ s.iframe_size ≤ cap ∧
      chiaki_python_session_get_iframe s (some dst) cap =
        { ret := s.iframe_size
          buffer := some (b.take s.iframe_size ++ dst.drop s.iframe_size)
          sess := s }) ∨
    ((s.iframe = none ∨ s.have_iframe = false ∨ cap < s.iframe_size) ∧
      chiaki_python_session_get_iframe s (some dst) cap =
        { ret := 0, buffer := some dst, sess := s }) := by
  cases hb : s.iframe with
  | none =>
    right
    exact ⟨Or.inl rfl, get_iframe_no_block s hb (some dst) cap⟩
  | some b =>
    cases hf : s.have_iframe with
    | false =>
      right
      exact ⟨Or.inr (Or.inl rfl), get_iframe_flag_down s hf (some dst) cap⟩
    | true =>
      by_cases hc : s.iframe_size ≤ cap
      · left
        exact ⟨b, rfl, rfl, hc, get_iframe_flag_up s b dst cap hf hb hc⟩
      · right
        refine ⟨Or.inr (Or.inr (by omega)), ?_⟩
        simp [chiaki_python_session_get_iframe, hb, hf, hc]

/-! ## Gating of the keyframe read -/

/-- C11: in every session reached from a fresh one by deliveries of units
that are objects in memory, with every allocation succeeding, by reads and
by clears, and for every destination and capacity `cap`:
`chiaki_python_session_get_iframe` returns 0 and leaves the destination as
it was exactly when the have-keyframe flag is false or the keyframe length
exceeds `cap`; otherwise it returns the keyframe length and writes exactly
the keyframe bytes at the front of the destination. -/
theorem C11_keyframe_read_gating (ops : List Op) (dst : List Nat) (cap : Nat)
    (hreal : ∀ op ∈ ops, real_op op = true)
    (halloc : ∀ op ∈ ops, alloc_ok_op op = true) :
    (((chiaki_python_session_get_iframe (run calloc_session ops) (some dst) cap).ret = 0 ∧
        (chiaki_python_session_get_iframe (run calloc_session ops) (some dst) cap).buffer
          = some dst) ↔
      ((run calloc_session ops).have_iframe = false ∨
        cap < (run calloc_session ops).iframe_size)) ∧
    (¬ ((run calloc_session ops).have_iframe = false ∨
        cap < (run calloc_session ops).iframe_size) →
      ∃ b, (run calloc_session ops).iframe = some b ∧
        b.length = (run calloc_session ops).iframe_size ∧
        chiaki_python_session_get_iframe (run calloc_session ops) (some dst) cap
          = { ret := b.length
              buffer := some (b ++ dst.drop b.length)
              sess := run calloc_session ops }) := by
  obtain ⟨_, hI2⟩ := run_consistent ops calloc_session calloc_consistent hreal
  have hback := run_flag_backed ops calloc_session (fun h => absurd h (by decide)) halloc
  rcases get_iframe_cases (run calloc_session ops) dst cap with
    ⟨b, hb, hf, hc, hres⟩ | ⟨hwhy, hres⟩
  · obtain ⟨hlen, h6, _⟩ := hI2 b hb
    refine ⟨⟨?_, ?_⟩, ?_⟩
    · rintro ⟨hret, _⟩
      rw [hres] at hret
      have : (run calloc_session ops).iframe_size = 0 := hret
      omega
    · rintro (h | h)
      · rw [hf] at h
        exact absurd h (by decide)
      · omega
    · intro _
      refine ⟨b, hb, hlen, ?_⟩
      rw [hres, ← hlen, List.take_length]
  · have hgate : (run calloc_session ops).have_iframe = false ∨
        cap < (run calloc_session ops).iframe_size := by
      rcases hwhy with h | h | h
      · cases hf : (run calloc_session ops).have_iframe with
        | false => exact Or.inl rfl
        | true =>
          have := hback hf
          rw [h] at this
          exact absurd this (by decide)
      · exact Or.inl h
      · exact Or.inr h
    refine ⟨⟨fun _ => hgate, fun _ => ?_⟩, fun hn => absurd hgate hn⟩
    rw [hres]
    exact ⟨rfl, rfl⟩

/-- C11, witness: a header unit and an IDR unit have been delivered to a
fresh session and the keyframe has 12 bytes.  With capacity 12 the read
returns 12 and writes the keyframe; the flag is up and 12 does not exceed
the capacity. -/
theorem C11_keyframe_read_gating_witness :
    ∃ b, (run calloc_session
        [Op.video_frame (whole [0, 0, 0, 1, 0x67, 0x42]),
         Op.video_frame (whole [0, 0, 0, 1, 0x65, 0x88])]).iframe = some b ∧
      b.length = (run calloc_session
        [Op.video_frame (whole [0, 0, 0, 1, 0x67, 0x42]),
         Op.video_frame (whole [0, 0, 0, 1, 0x65, 0x88])]).iframe_size ∧
      chiaki_python_session_get_iframe
          (run calloc_session
            [Op.video_frame (whole [0, 0, 0, 1, 0x67, 0x42]),
             Op.video_frame (whole [0, 0, 0, 1, 0x65, 0x88])])
          (some [9, 9, 9, 9, 9, 9, 9, 9, 9, 9, 9, 9]) 12
        = { ret := b.length
            buffer := some (b ++ List.drop b.length [9, 9, 9, 9, 9, 9, 9, 9, 9, 9, 9, 9])
            sess := run calloc_session
              [Op.video_frame (whole [0, 0, 0, 1, 0x67, 0x42]),
               Op.video_frame (whole [0, 0, 0, 1, 0x65, 0x88])] } :=
  (C11_keyframe_read_gating
    [Op.video_frame (whole [0, 0, 0, 1, 0x67, 0x42]),
     Op.video_frame (whole [0, 0, 0, 1, 0x65, 0x88])]
    [9, 9, 9, 9, 9, 9, 9, 9, 9, 9, 9, 9] 12 (by decide) (by decide)).2 (by decide)

/-! ## The front of the keyframe -/

/-- C20: in every session reached from a fresh one by deliveries of units
that are objects in memory (any allocator outcome), reads and clears, when
`chiaki_python_session_get_iframe` returns `n > 0` bytes then `n >= 6` and
`get_first_nal_type` applied to the `n` bytes written answers 7 or 8. -/
theorem C20_keyframe_front (ops : List Op) (buffer : Option (List Nat)) (cap : Nat)
    (hreal : ∀ op ∈ ops, real_op op = true)
    (hpos : 0 < (chiaki_python_session_get_iframe (run calloc_session ops) buffer cap).ret) :
    6 ≤ (chiaki_python_session_get_iframe (run calloc_session ops) buffer cap).ret ∧
    ∃ out,
      (chiaki_python_session_get_iframe (run calloc_session ops) buffer cap).buffer
        = some out ∧
      (get_first_nal_type
          (out.take (chiaki_python_session_get_iframe (run calloc_session ops) buffer cap).ret)
          (chiaki_python_session_get_iframe (run calloc_session ops) buffer cap).ret = 7 ∨
        get_first_nal_type
          (out.take (chiaki_python_session_get_iframe (run calloc_session ops) buffer cap).ret)
          (chiaki_python_session_get_iframe (run calloc_session ops) buffer cap).ret = 8) := by
  obtain ⟨_, hI2⟩ := run_consistent ops calloc_session calloc_consistent hreal
  cases buffer with
  | none =>
    exfalso
    simp [chiaki_python_session_get_iframe] at hpos
  | some dst =>
    rcases get_iframe_cases (run calloc_session ops) dst cap with
      ⟨b, hb, hf, hc, hres⟩ | ⟨_, hres⟩
    · obtain ⟨hlen, h6, hty⟩ := hI2 b hb
      rw [hres]
      refine ⟨by show 6 ≤ (run calloc_session ops).iframe_size; omega, _, rfl, ?_⟩
      show get_first_nal_type
          ((b.take (run calloc_session ops).iframe_size
            ++ dst.drop (run calloc_session ops).iframe_size).take
              (run calloc_session ops).iframe_size)
          (run calloc_session ops).iframe_size = 7 ∨ _
      have htake : (b.take (run calloc_session ops).iframe_size
          ++ dst.drop (run calloc_session ops).iframe_size).take
            (run calloc_session ops).iframe_size = b := by
        rw [← hlen, List.take_length, List.take_left']
        rfl
      show get_first_nal_type _ (run calloc_session ops).iframe_size = 7 ∨
        get_first_nal_type _ (run calloc_session ops).iframe_size = 8
      rw [htake, ← hlen]
      exact hty
    · rw [hres] at hpos
      exact absurd hpos (Nat.lt_irrefl 0)

/-- C20, witness: after a header unit and an IDR unit the keyframe read
returns 12 bytes, which is at least 6. -/
theorem C20_keyframe_front_witness :
    6 ≤ (chiaki_python_session_get_iframe
      (run calloc_session
        [Op.video_frame (whole [0, 0, 0, 1, 0x67, 0x42]),
         Op.video_frame (whole [0, 0, 0, 1, 0x65, 0x88])])
      (some [9, 9, 9, 9, 9, 9, 9, 9, 9, 9, 9, 9]) 12).ret :=
  (C20_keyframe_front
    [Op.video_frame (whole [0, 0, 0, 1, 0x67, 0x42]),
     Op.video_frame (whole [0, 0, 0, 1, 0x65, 0x88])]
    (some [9, 9, 9, 9, 9, 9, 9, 9, 9, 9, 9, 9]) 12 (by decide) (by decide)).1

end ChiakiPython
